import Mathlib

/-!
Verification of the marketplace plugin validator and catalog generator
(scripts/validate-plugins.py, scripts/generate-catalog.py).

The Python sources are shallowly embedded below.  Conventions of the
embedding:

* JSON values are modelled by the inductive `JVal`; Python `None` and
  JSON `null` are both `JVal.jnull`.
* Python string operations (`strip`, `startswith`, `split`, slicing)
  are modelled by executable functions over `String.data` (the list of
  characters), matching Python code-point semantics on the inputs the
  validator handles.
* Regular-expression matching of the anchored validation regexes
  (SEMVER_RE, GITHUB_REPO_RE, PLUGIN_NAME_RE, DOMAIN_RE and the IPv4
  check) is implemented concretely; `re.match` of a `^...$` pattern in
  Python also accepts a single trailing newline, which `pyDollarMatch`
  reproduces.
* Matching of the security-scan pattern tables is abstracted by a
  `ReEngine` (`search pid line` returns `match.group(0)` of the pattern
  with identifier `pid`, `domain1 line` returns group 1 of the
  domain-extraction regex).  Theorems quantify over the engine; concrete
  engines used in witnesses implement the literal-substring patterns
  they mention exactly as `re.search` does.
* Filesystem state (a cloned repository, the run-level temporary
  directory) is modelled as data: `RFile`, `Repo`, and a list of
  existing per-plugin directory names threaded through the driver.
* Error and warning message strings follow the source f-strings, except
  that quote characters are omitted and float megabyte formatting is
  replaced by byte counts; no theorem depends on those fragments.
* Exceptional Python paths (AttributeError on duck-typed `.get` of a
  non-dict, TypeError from `set()` of a non-iterable) are collapsed to
  the default-value path; every such path in the validator is only
  reachable when a schema error has already been recorded, so no claim
  below depends on the difference.
-/

namespace PluginValidator

/-- Python `str.startswith`, via code-point lists. -/
def pyStartsWith (s pre : String) : Bool := pre.data.isPrefixOf s.data

/-- Python `str.endswith`, via code-point lists. -/
def pyEndsWith (s suf : String) : Bool := suf.data.isSuffixOf s.data

/-- Python `str.strip()` (whitespace at both ends). -/
def pyStrip (s : String) : String :=
  String.mk (((s.data.dropWhile Char.isWhitespace).reverse.dropWhile Char.isWhitespace).reverse)

/-- Python `s[:n]` for strings (first `n` code points). -/
def pyTake (s : String) (n : Nat) : String := String.mk (s.data.take n)

/-- Python `s[-n:]` for strings (last `n` code points). -/
def pyTakeRight (s : String) (n : Nat) : String := String.mk (s.data.drop (s.data.length - n))

/-- Python `str.lower()` (ASCII case folding suffices here). -/
def pyLower (s : String) : String := String.mk (s.data.map Char.toLower)

/-- Python single-character `str.split(sep)` helper. -/
def pySplitAux (sep : Char) : List Char → List Char → List String
  | [], acc => [String.mk acc.reverse]
  | c :: cs, acc =>
      if c = sep then String.mk acc.reverse :: pySplitAux sep cs []
      else pySplitAux sep cs (c :: acc)

/-- Python `str.split(sep)` for a one-character separator
(`"".split(sep) = [""]`, as in Python). -/
def pySplit (sep : Char) (s : String) : List String := pySplitAux sep s.data []

/-- Python `sep.join(xs)`. -/
def pyJoin (sep : String) (xs : List String) : String := String.intercalate sep xs

/-- JSON values as produced by `json.loads`; `jnull` also stands for
Python `None`.  Numbers are modelled as integers (the validator never
inspects numeric values beyond truthiness). -/
inductive JVal where
  | jnull : JVal
  | jbool : Bool → JVal
  | jnum : Int → JVal
  | jstr : String → JVal
  | jarr : List JVal → JVal
  | jobj : List (String × JVal) → JVal
deriving Repr

/-- Equality test of JSON values as used by the validator's set
membership checks (`n in seen`, set difference of domains).  Python
sets can only hold hashable values, so those checks only ever compare
scalars and strings (a list or dict in such a position raises
TypeError); containers therefore compare unequal here. -/
def JVal.beq : JVal → JVal → Bool
  | .jnull, .jnull => true
  | .jbool a, .jbool b => a == b
  | .jnum a, .jnum b => a == b
  | .jstr a, .jstr b => a == b
  | _, _ => false

/-- Python `v is None` (and `v is not None` negated). -/
def JVal.isNull : JVal → Bool
  | .jnull => true
  | _ => false

/-- Python truthiness of a JSON value. -/
def truthy : JVal → Bool
  | .jnull => false
  | .jbool b => b
  | .jnum n => n != 0
  | .jstr s => s != ""
  | .jarr xs => !xs.isEmpty
  | .jobj kvs => !kvs.isEmpty

def JVal.isObj : JVal → Bool
  | .jobj _ => true
  | _ => false

def JVal.isArr : JVal → Bool
  | .jarr _ => true
  | _ => false

def JVal.isStr : JVal → Bool
  | .jstr _ => true
  | _ => false

/-- The string payload of a JSON value (only used after `isStr` checks). -/
def JVal.asStr : JVal → String
  | .jstr s => s
  | _ => ""

/-- The element list of a JSON array value. -/
def JVal.asArr : JVal → List JVal
  | .jarr xs => xs
  | _ => []

/-- Python `key in d` (dict key membership). -/
def hasKey (v : JVal) (k : String) : Bool :=
  match v with
  | .jobj kvs => kvs.any (fun kv => kv.1 == k)
  | _ => false

/-- Key lookup on a JSON object; `none` when the key is absent or the
value is not an object (Python raises AttributeError on non-dicts; see
the file comment). -/
def getKey (v : JVal) (k : String) : Option JVal :=
  match v with
  | .jobj kvs => (kvs.find? (fun kv => kv.1 == k)).map (fun kv => kv.2)
  | _ => none

/-- Python `d.get(k, default)`. -/
def getKeyD (v : JVal) (k : String) (d : JVal) : JVal := (getKey v k).getD d

/-- Python `d.get(k)` (default `None`). -/
def pyGet (v : JVal) (k : String) : JVal := getKeyD v k JVal.jnull

/-- Does a JSON value equal the given Python string? -/
def jvalEqStr (v : JVal) (s : String) : Bool :=
  match v with
  | .jstr t => t == s
  | _ => false

/-- Membership of a JSON value in a list of JSON values (Python
`x in someSet`). -/
def containsJ (xs : List JVal) (x : JVal) : Bool := xs.any (fun y => y.beq x)

/-- Python `set(v)` collapsed to a list: arrays give their elements,
strings their characters; non-iterables (a TypeError in Python, only
reachable after a schema error) give `[]`. -/
def pySet (v : JVal) : List JVal :=
  match v with
  | .jarr xs => xs
  | .jstr s => s.data.map (fun c => JVal.jstr (String.singleton c))
  | _ => []

/-- Python `str(v)` for report strings: exact on scalars, simplified on
containers (no claim inspects the container rendering). -/
def pyStr : JVal → String
  | .jnull => "None"
  | .jbool b => if b then "True" else "False"
  | .jnum n => toString n
  | .jstr s => s
  | .jarr _ => "[...]"
  | .jobj _ => "{...}"

/-- `re.match` of a `^core$` pattern: Python also lets `$` match just
before one trailing newline. -/
def pyDollarMatch (core : String → Bool) (s : String) : Bool :=
  core s || (pyEndsWith s "\n" && core (pyTake s (s.data.length - 1)))

def isDigitCh (c : Char) : Bool := c.isDigit

def isAlnumAscii (c : Char) : Bool := c.isDigit || c.isLower || c.isUpper

/-- One `\d+` group: nonempty, all digits. -/
def allDigits1 (s : String) : Bool := !s.data.isEmpty && s.data.all isDigitCh

/-- A character of the semver prerelease and build class `[0-9A-Za-z.-]`. -/
def semverTailCh (c : Char) : Bool := isAlnumAscii c || c = '.' || c = '-'

/-- `\d+\.\d+\.\d+` exactly. -/
def semverVersionCore (s : String) : Bool :=
  match pySplit '.' s with
  | [a, b, c] => allDigits1 a && allDigits1 b && allDigits1 c
  | _ => false

/-- The core language of SEMVER_RE
`^\d+\.\d+\.\d+(-[0-9A-Za-z\.-]+)?(\+[0-9A-Za-z\.-]+)?$`. -/
def semverCore (s : String) : Bool :=
  let tailOk : String → Bool := fun t => !t.data.isEmpty && t.data.all semverTailCh
  let mainOk : String → Bool := fun m =>
    match pySplit '-' m with
    | [v] => semverVersionCore v
    | v :: rest => semverVersionCore v && tailOk (pyJoin "-" rest)
    | [] => false
  match pySplit '+' s with
  | [m] => mainOk m
  | [m, b] => mainOk m && tailOk b
  | _ => false

/-- `SEMVER_RE.match` (source line 70). -/
def SEMVER_RE_match (s : String) : Bool := pyDollarMatch semverCore s

/-- The core language of GITHUB_REPO_RE
`^https://github\.com/[^/]+/[^/]+(\.git)?$`: the prefix followed by
exactly two nonempty slash-free components (the optional `.git` is
absorbed by the second `[^/]+`). -/
def githubRepoCore (s : String) : Bool :=
  pyStartsWith s "https://github.com/" &&
  (match pySplit '/' (String.mk (s.data.drop 19)) with
   | [a, b] => !a.data.isEmpty && !b.data.isEmpty
   | _ => false)

/-- `GITHUB_REPO_RE.match` (source line 71). -/
def GITHUB_REPO_RE_match (s : String) : Bool := pyDollarMatch githubRepoCore s

/-- The core language of PLUGIN_NAME_RE `^[a-z][a-z0-9-]*$`. -/
def pluginNameCore (s : String) : Bool :=
  match s.data with
  | [] => false
  | c :: cs => c.isLower && cs.all (fun d => d.isLower || d.isDigit || d = '-')

/-- `PLUGIN_NAME_RE.match` (source line 72). -/
def PLUGIN_NAME_RE_match (s : String) : Bool := pyDollarMatch pluginNameCore s

/-- One label of DOMAIN_RE: `[a-zA-Z0-9]([a-zA-Z0-9-]*[a-zA-Z0-9])?`. -/
def domainLabelOk (s : String) : Bool :=
  match s.data with
  | [] => false
  | [c] => isAlnumAscii c
  | c :: cs =>
      isAlnumAscii c &&
      (match cs.getLast? with
       | some d => isAlnumAscii d
       | none => false) &&
      (cs.dropLast.all (fun d => isAlnumAscii d || d = '-'))

/-- The core language of DOMAIN_RE (dot-separated labels). -/
def domainCore (s : String) : Bool := (pySplit '.' s).all domainLabelOk

/-- `DOMAIN_RE.match` (source line 73). -/
def DOMAIN_RE_match (s : String) : Bool := pyDollarMatch domainCore s

/-- The inline IPv4 check `re.match(r"^\d+\.\d+\.\d+\.\d+$", d)`
(source line 365). -/
def IPV4_RE_match (s : String) : Bool :=
  pyDollarMatch
    (fun t =>
      match pySplit '.' t with
      | [a, b, c, d] => allDigits1 a && allDigits1 b && allDigits1 c && allDigits1 d
      | _ => false) s

/-!
## Security pattern tables (source lines 80-160)

Each pattern is `(pid, label)`: `pid` identifies the regex of the source
table (ids 0.. secrets, 100.. network-code, 200.. shell-network,
300.. telemetry) and `label` is the human-readable name, verbatim.
-/

/-- SECRET_PATTERNS (source lines 80-103). -/
def SECRET_PATTERNS : List (Nat × String) :=
  [(0, "AWS Access Key ID"),
   (1, "AWS Secret Key assignment"),
   (2, "API key assignment"),
   (3, "API secret assignment"),
   (4, "Bearer token"),
   (5, "Token assignment"),
   (6, "GitHub Personal Access Token"),
   (7, "GitHub OAuth Token"),
   (8, "GitHub Fine-grained PAT"),
   (9, "Private key"),
   (10, "Password assignment"),
   (11, "Password assignment"),
   (12, "Slack token"),
   (13, "Discord token/webhook"),
   (14, "Secret assignment")]

/-- NETWORK_CODE_PATTERNS (source lines 106-129). -/
def NETWORK_CODE_PATTERNS : List (Nat × String) :=
  [(100, "requests import"),
   (101, "requests import"),
   (102, "urllib.request import"),
   (103, "urllib.request import"),
   (104, "http.client import"),
   (105, "aiohttp import"),
   (106, "httpx import"),
   (107, "requests HTTP call"),
   (108, "urllib HTTP call"),
   (109, "socket import"),
   (110, "socket import"),
   (111, "fetch() call"),
   (112, "axios call"),
   (113, "XMLHttpRequest"),
   (114, "jQuery ajax call"),
   (115, "Node http/https require"),
   (116, "Node http/https import"),
   (117, "WebSocket connection"),
   (118, "websocket import")]

/-- SHELL_NETWORK_PATTERNS (source lines 132-144). -/
def SHELL_NETWORK_PATTERNS : List (Nat × String) :=
  [(200, "curl command"),
   (201, "wget command"),
   (202, "netcat (nc) command"),
   (203, "ncat command"),
   (204, "socat command"),
   (205, "ssh command"),
   (206, "scp command"),
   (207, "rsync remote command"),
   (208, "PowerShell Invoke-WebRequest"),
   (209, "PowerShell Invoke-RestMethod"),
   (210, "telnet command")]

/-- TELEMETRY_PATTERNS (source lines 147-154). -/
def TELEMETRY_PATTERNS : List (Nat × String) :=
  [(300, "Analytics service URL"),
   (301, "Error tracking URL"),
   (302, "Analytics/telemetry URL"),
   (303, "PostHog tracking call"),
   (304, "Analytics tracking call"),
   (305, "Sentry initialization")]

/-- NETWORK_PATTERNS = NETWORK_CODE + SHELL_NETWORK + TELEMETRY
(source line 157). -/
def NETWORK_PATTERNS : List (Nat × String) :=
  NETWORK_CODE_PATTERNS ++ SHELL_NETWORK_PATTERNS ++ TELEMETRY_PATTERNS

/-- SCANNABLE_EXTENSIONS (source line 160). -/
def SCANNABLE_EXTENSIONS : List String :=
  [".py", ".js", ".ts", ".sh", ".bash", ".zsh", ".rb", ".go", ".rs", ".ps1"]

/-- An abstract interface to `re.search` over the pattern tables:
`search pid line` is `match.group(0)` of the pattern with id `pid` on
`line` (`none` when there is no match); `domain1 line` is group 1 of
the domain-extraction regex `https?://([^/\s..]+)` on `line`. -/
structure ReEngine where
  search : Nat → String → Option String
  domain1 : String → Option String

/-- The comment filter of the three scan functions: skip a line whose
stripped form starts with `#`, `//` or `*`. -/
def isCommentLine (line : String) : Bool :=
  let s := pyStrip line
  pyStartsWith s "#" || pyStartsWith s "//" || pyStartsWith s "*"

/-- `enumerate(xs, n)`. -/
def numberFrom {α : Type} : Nat → List α → List (Nat × α)
  | _, [] => []
  | n, x :: xs => (n, x) :: numberFrom (n + 1) xs

/-- One finding: `(line_num, pattern_name, matched_snippet)`. -/
abbrev Finding := Nat × String × String

/-- The shared body of the three scan functions: split content on
newlines, skip comment lines, and record one finding per matching
pattern, with the pattern tables and snippet post-processing supplied. -/
def scan_generic (eng : ReEngine) (pats : List (Nat × String)) (snip : String → String)
    (content : String) : List Finding :=
  (numberFrom 1 (pySplit '\n' content)).flatMap (fun nl =>
    if isCommentLine nl.2 then []
    else pats.filterMap (fun p =>
      (eng.search p.1 nl.2).map (fun m => (nl.1, p.2, snip m))))

/-- Secret snippet redaction (source lines 501-503). -/
def redactSecret (m : String) : String :=
  if m.data.length > 20 then pyTake m 8 ++ "..." ++ pyTakeRight m 4 else m

/-- `scan_file_for_secrets` (source lines 487-506; the unused
`file_path` parameter is omitted). -/
def scan_file_for_secrets (eng : ReEngine) (content : String) : List Finding :=
  scan_generic eng SECRET_PATTERNS redactSecret content

/-- `scan_file_for_network` (source lines 509-526). -/
def scan_file_for_network (eng : ReEngine) (content : String) : List Finding :=
  scan_generic eng NETWORK_PATTERNS (fun m => pyTake m 50) content

/-- `scan_file_for_telemetry` (source lines 529-546). -/
def scan_file_for_telemetry (eng : ReEngine) (content : String) : List Finding :=
  scan_generic eng TELEMETRY_PATTERNS (fun m => pyTake m 50) content

/-!
## Repository files and the repo-level security scan
-/

/-- A regular file of a cloned repository, as observed by the
validator: `parts` is the path relative to the repo root (what
`f.relative_to(repo_path).parts` yields), `suffix` is `Path.suffix` of
the file name, `probablyBinary` records the result of the byte probe
`is_probably_binary`. -/
structure RFile where
  parts : List String
  suffix : String
  content : String
  size : Nat
  isSymlink : Bool
  probablyBinary : Bool
deriving DecidableEq

/-- `str(f.relative_to(repo_path))` with POSIX separators. -/
def relString (f : RFile) : String := pyJoin "/" f.parts

/-- The content-directory filter of `security_scan_repo`
(source line 564). -/
def content_dirs : List String := ["commands", "hooks", "agents", "skills"]

/-- Does `security_scan_repo` scan this file?  Extension in
SCANNABLE_EXTENSIONS and first path component a content directory
(source lines 567-575). -/
def is_scan_candidate (f : RFile) : Bool :=
  SCANNABLE_EXTENSIONS.contains (pyLower f.suffix) &&
  (match f.parts.head? with
   | some d => content_dirs.contains d
   | none => false)

/-- Is a network finding reclassified as telemetry (source lines
602-604): some telemetry pattern matches the recorded snippet? -/
def isTelemetryClassified (eng : ReEngine) (snippet : String) : Bool :=
  TELEMETRY_PATTERNS.any (fun tp => (eng.search tp.1 snippet).isSome)

/-- `content.split("\n")[line_num - 1]` (source line 622); findings
always carry in-range line numbers. -/
def lineAt (content : String) (n : Nat) : String :=
  (pySplit '\n' content).getD (n - 1) ""

def secretErrMsg (rel : String) (t : Finding) : String :=
  "SECURITY: Hardcoded secret detected & rejected by validator in " ++ rel ++ ":" ++
    toString t.1 ++ " - " ++ t.2.1

def telemetryErrMsg (rel : String) (t : Finding) : String :=
  "SECURITY: Telemetry/analytics detected & rejected by validator in " ++ rel ++ ":" ++
    toString t.1 ++ " - " ++ t.2.1

def curatedNetErrMsg (rel : String) (t : Finding) : String :=
  "SECURITY: Network code detected & rejected by validator in " ++ rel ++ ":" ++
    toString t.1 ++ " - " ++ t.2.1 ++
    ". Curated plugins must not use network. Remove network code or move to community tier."

def communityNetWarnMsg (rel : String) (t : Finding) : String :=
  "Network code in " ++ rel ++ ":" ++ toString t.1 ++ " - " ++ t.2.1 ++
    ". Ensure all accessed domains are declared in manifest."

/-- The per-file error list of `security_scan_repo` (secret errors,
telemetry errors, then tier-dependent network errors; source lines
581-613). -/
def scanFileErrors (eng : ReEngine) (tier : String) (f : RFile) : List String :=
  ((scan_file_for_secrets eng f.content).map (secretErrMsg (relString f))) ++
  ((scan_file_for_telemetry eng f.content).map (telemetryErrMsg (relString f))) ++
  (if tier == "curated" then
    (scan_file_for_network eng f.content).filterMap (fun t =>
      if isTelemetryClassified eng t.2.2 then none
      else some (curatedNetErrMsg (relString f) t))
   else [])

/-- The per-file warning list of `security_scan_repo` (community-tier
network warnings; source lines 614-619). -/
def scanFileWarnings (eng : ReEngine) (tier : String) (f : RFile) : List String :=
  if tier == "curated" then []
  else
    (scan_file_for_network eng f.content).filterMap (fun t =>
      if isTelemetryClassified eng t.2.2 then none
      else some (communityNetWarnMsg (relString f) t))

/-- The per-file detected domains (source lines 621-624): for every
network finding not reclassified as telemetry, group 1 of the
domain-extraction regex on that finding's line. -/
def scanFileDomains (eng : ReEngine) (f : RFile) : List String :=
  (scan_file_for_network eng f.content).filterMap (fun t =>
    if isTelemetryClassified eng t.2.2 then none
    else eng.domain1 (lineAt f.content t.1))

/-- The result of `security_scan_repo`. -/
structure ScanOut where
  errors : List String
  warnings : List String
  network_detected : Bool
  detected_domains : List String

/-- `security_scan_repo` (source lines 549-629).  The imperative loop is
rendered field-wise; the order of each field's entries follows the
source, and `detected_domains`, a Python set, is kept as the list of
insertions (only membership is ever used).  The `allowed_domains`
parameter is unused, as in the source. -/
def security_scan_repo (eng : ReEngine) (files : List RFile) (tier : String)
    (allowed_domains : List JVal) : ScanOut :=
  { errors := files.flatMap (fun f => if is_scan_candidate f then scanFileErrors eng tier f else [])
    warnings := files.flatMap (fun f => if is_scan_candidate f then scanFileWarnings eng tier f else [])
    network_detected := files.any (fun f =>
      is_scan_candidate f && !(scan_file_for_network eng f.content).isEmpty)
    detected_domains := files.flatMap (fun f =>
      if is_scan_candidate f then scanFileDomains eng f else []) }

/-!
## Manifest schema validation (source lines 290-383)
-/

/-- ALLOWED_TIERS (source line 40): membership test of a JSON value. -/
def tierStrMem (v : JVal) : Bool := jvalEqStr v "curated" || jvalEqStr v "community"

/-- `egress in ["low", "medium", "high"]` (source line 380). -/
def egressValid (v : JVal) : Bool :=
  jvalEqStr v "low" || jvalEqStr v "medium" || jvalEqStr v "high"

/-- The legacy flag of `validate_plugin_manifest_schema` (source lines
312-318) and of `validate_plugin_repo` (source line 723): set when
`policyTier` is missing OR `capabilities` is missing. -/
def manifest_is_legacy (m : JVal) : Bool :=
  !hasKey m "policyTier" || !hasKey m "capabilities"

/-- The policyTier errors (source lines 331-336). -/
def schema_policy_tier_errors (m : JVal) (tier : String) : List String :=
  let pt := pyGet m "policyTier"
  if truthy pt then
    if !tierStrMem pt then
      ["manifest.policyTier must be one of: community, curated"]
    else if !jvalEqStr pt tier then
      ["manifest.policyTier " ++ pyStr pt ++ " does not match marketplace tier " ++ tier]
    else []
  else []

/-- The per-domain error of the allowlist loop (source lines 358-366). -/
def schema_domain_errors (d : JVal) : List String :=
  match d with
  | JVal.jstr s =>
      if !DOMAIN_RE_match s then
        ["invalid domain format (no wildcards, no IPs, no protocols): " ++ s]
      else if pyStartsWith s "*." then
        ["wildcard domains not allowed: " ++ s]
      else if IPV4_RE_match s then
        ["IP addresses not allowed as domains: " ++ s]
      else []
  | other => ["domain must be string: " ++ pyStr other]

/-- The capabilities errors (source lines 339-368). -/
def schema_caps_errors (m : JVal) : List String :=
  let caps := pyGet m "capabilities"
  if caps.isNull then []
  else if !caps.isObj then ["manifest.capabilities must be an object"]
  else
    let network := getKeyD caps "network" (JVal.jobj [])
    if !network.isObj then ["manifest.capabilities.network must be an object"]
    else
      let mode := pyGet network "mode"
      let modeErr :=
        if !mode.isNull && !jvalEqStr mode "none" && !jvalEqStr mode "allowlist" then
          ["manifest.capabilities.network.mode must be none or allowlist"]
        else []
      let domains := getKeyD network "domains" (JVal.jarr [])
      let domErrs :=
        if jvalEqStr mode "allowlist" then
          if !truthy domains || !domains.isArr then
            ["manifest.capabilities.network.domains required when mode is allowlist"]
          else domains.asArr.flatMap schema_domain_errors
        else if jvalEqStr mode "none" && truthy domains then
          ["manifest.capabilities.network.domains should not be present when mode is none"]
        else []
      modeErr ++ domErrs

/-- `effective_tier == "community"` (source lines 371-373):
`policy_tier or tier` compared with `"community"`. -/
def effective_community (m : JVal) (tier : String) : Bool :=
  let pt := pyGet m "policyTier"
  if truthy pt then jvalEqStr pt "community" else tier == "community"

/-- The risk-metadata errors (source lines 370-381). -/
def schema_risk_errors (m : JVal) (tier : String) : List String :=
  let risk := pyGet m "risk"
  if effective_community m tier && !manifest_is_legacy m then
    if !truthy risk then ["manifest.risk required for community tier plugins"]
    else if !risk.isObj then ["manifest.risk must be an object"]
    else if !egressValid (pyGet risk "dataEgress") then
      ["manifest.risk.dataEgress must be low, medium, or high"]
    else []
  else []

/-- The name-format warning (source lines 321-323). -/
def schema_name_warnings (m : JVal) : List String :=
  match getKeyD m "name" (JVal.jstr "") with
  | JVal.jstr s =>
      if s != "" && !PLUGIN_NAME_RE_match s then
        ["manifest.name should be lowercase with hyphens: " ++ s]
      else []
  | _ => []

/-- The version-format warning (source lines 326-328). -/
def schema_version_warnings (m : JVal) : List String :=
  match getKeyD m "version" (JVal.jstr "") with
  | JVal.jstr s =>
      if s != "" && !SEMVER_RE_match s then
        ["manifest.version should be semver: " ++ s]
      else []
  | _ => []

/-- `validate_plugin_manifest_schema` (source lines 290-383), returning
`(errors, warnings)` in source append order. -/
def validate_plugin_manifest_schema (m : JVal) (tier : String) :
    List String × List String :=
  let nameErrs :=
    if !hasKey m "name" then ["manifest missing required field: name"] else []
  let recWarns :=
    (if !hasKey m "version" then ["manifest missing recommended field: version"] else []) ++
    (if !hasKey m "description" then ["manifest missing recommended field: description"] else [])
  let legacyWarns :=
    (if !hasKey m "policyTier" then
       ["manifest missing policyTier field (legacy manifest). Assuming tier=" ++ tier ++
         " from marketplace entry."]
     else []) ++
    (if !hasKey m "capabilities" then
       ["manifest missing capabilities field (legacy manifest). Assuming network.mode=none."]
     else [])
  (nameErrs ++ schema_policy_tier_errors m tier ++ schema_caps_errors m ++
     schema_risk_errors m tier,
   recWarns ++ legacyWarns ++ schema_name_warnings m ++ schema_version_warnings m)

/-!
## Tier policy (source lines 386-428)
-/

/-- The effective network mode used by `validate_tier_policy`
(source lines 391-393). -/
def tier_policy_mode (m : JVal) : JVal :=
  let caps := getKeyD m "capabilities" (JVal.jobj [])
  let network := if truthy caps then getKeyD caps "network" (JVal.jobj []) else JVal.jobj []
  if truthy network then getKeyD network "mode" (JVal.jstr "none") else JVal.jstr "none"

/-- The network object seen by `validate_tier_policy` (for the domains
lookup of the allowlist branch, source line 421). -/
def tier_policy_network (m : JVal) : JVal :=
  let caps := getKeyD m "capabilities" (JVal.jobj [])
  if truthy caps then getKeyD caps "network" (JVal.jobj []) else JVal.jobj []

/-- `validate_tier_policy` (source lines 386-428); the `is_legacy`
parameter is unused, as in the source. -/
def validate_tier_policy (m : JVal) (tier : String) (is_legacy : Bool) : List String :=
  let mode := tier_policy_mode m
  if tier == "curated" then
    (if !jvalEqStr mode "none" then
       ["TIER POLICY: curated plugins must have capabilities.network.mode=none, found " ++
         pyStr mode ++ ". Remove network access or move to community tier."]
     else []) ++
    (let risk := getKeyD m "risk" (JVal.jobj [])
     let eg := pyGet risk "dataEgress"
     if truthy risk && (jvalEqStr eg "medium" || jvalEqStr eg "high") then
       ["TIER POLICY: curated plugins cannot have medium/high risk. Found risk.dataEgress=" ++
         pyStr eg]
     else [])
  else if tier == "community" then
    (if !jvalEqStr mode "none" && !jvalEqStr mode "allowlist" then
       ["TIER POLICY: community plugins must use network.mode=none or allowlist, found " ++
         pyStr mode]
     else []) ++
    (if jvalEqStr mode "allowlist" &&
        !truthy (getKeyD (tier_policy_network m) "domains" (JVal.jarr [])) then
       ["TIER POLICY: community plugins with network.mode=allowlist must declare explicit " ++
         "domains in capabilities.network.domains"]
     else [])
  else []

/-!
## Consistency check (source lines 632-663)
-/

/-- The declared mode seen by `check_consistency` (source line 643). -/
def consistency_mode (m : JVal) : JVal :=
  let caps := getKeyD m "capabilities" (JVal.jobj [])
  let network := getKeyD caps "network" (JVal.jobj [])
  getKeyD network "mode" (JVal.jstr "none")

/-- The declared domain set seen by `check_consistency`
(source line 644). -/
def declared_domains_of (m : JVal) : List JVal :=
  let caps := getKeyD m "capabilities" (JVal.jobj [])
  let network := getKeyD caps "network" (JVal.jobj [])
  pySet (getKeyD network "domains" (JVal.jarr []))

/-- `check_consistency` (source lines 632-663). -/
def check_consistency (tier : String) (m : JVal) (network_detected : Bool)
    (detected_domains : List String) : List String :=
  let declared_mode := consistency_mode m
  let declared := declared_domains_of m
  let e1 :=
    if network_detected && jvalEqStr declared_mode "none" then
      ["CONSISTENCY: Network code detected in plugin but manifest declares " ++
        "capabilities.network.mode=none. Either remove network code or " ++
        "update manifest to mode=allowlist with explicit domains."]
    else []
  let undeclared := detected_domains.filter (fun d => !containsJ declared (JVal.jstr d))
  let e2 :=
    if tier == "community" && jvalEqStr declared_mode "allowlist" &&
        !detected_domains.isEmpty && !undeclared.isEmpty then
      ["CONSISTENCY: Detected network access to domains not in allowlist: " ++
        pyJoin ", " undeclared ++
        ". Add these to capabilities.network.domains or remove access."]
    else []
  e1 ++ e2

/-!
## Marketplace entry parsing (source lines 435-480)
-/

/-- The `url` local of `parse_plugin_entry` (source lines 458-467):
`source.url` when `source` is a dict, else `None`. -/
def entry_source_url (p : JVal) : JVal :=
  let src := getKeyD p "source" (JVal.jobj [])
  if src.isObj then pyGet src "url" else JVal.jnull

/-- Acceptance condition of the two URL checks of `parse_plugin_entry`
(source lines 469-478): a truthy string starting with `http` that either
ends with `.git` or matches GITHUB_REPO_RE. -/
def url_accepted (u : JVal) : Bool :=
  truthy u && u.isStr && pyStartsWith u.asStr "http" &&
    (pyEndsWith u.asStr ".git" || GITHUB_REPO_RE_match u.asStr)

/-- The name errors of `parse_plugin_entry` (source lines 439-443). -/
def entry_name_errors (p : JVal) : List String :=
  let name := pyGet p "name"
  if !truthy name || !name.isStr then ["plugin.name missing or invalid"]
  else if !PLUGIN_NAME_RE_match name.asStr then
    ["plugin.name must be lowercase with hyphens: " ++ name.asStr]
  else []

/-- The tier local of `parse_plugin_entry` (source lines 446-448). -/
def entry_tier (p : JVal) : JVal :=
  let tier0 := if truthy (pyGet p "tier") then pyGet p "tier" else pyGet p "category"
  if jvalEqStr tier0 "official" then JVal.jstr "curated" else tier0

/-- The tier error (source lines 449-450). -/
def entry_tier_errors (p : JVal) : List String :=
  if !tierStrMem (entry_tier p) then ["plugin.tier must be one of: community, curated"]
  else []

/-- The tags error (source lines 452-456). -/
def entry_tags_errors (p : JVal) : List String :=
  let tags0 := getKeyD p "tags" (JVal.jarr [])
  let tags := if tags0.isNull then JVal.jarr [] else tags0
  if !tags.isArr || tags.asArr.any (fun t => !t.isStr) then
    ["plugin.tags must be a list of strings"]
  else []

/-- The source-type error (source lines 458-466). -/
def entry_source_type_errors (p : JVal) : List String :=
  let src := getKeyD p "source" (JVal.jobj [])
  if src.isObj then
    let st0 := if truthy (pyGet src "type") then pyGet src "type" else pyGet src "source"
    let st := if jvalEqStr st0 "url" then JVal.jstr "git" else st0
    if !jvalEqStr st "git" then ["plugin.source.type must be one of: git"] else []
  else []

/-- The URL-presence error (source lines 469-470). -/
def entry_url_presence_errors (p : JVal) : List String :=
  let url := entry_source_url p
  if !truthy url || !url.isStr || !pyStartsWith url.asStr "http" then
    ["plugin.source.url missing or invalid"]
  else []

/-- The URL-format error (source lines 472-478). -/
def entry_url_format_errors (p : JVal) : List String :=
  let url := entry_source_url p
  if truthy url && url.isStr then
    if pyEndsWith url.asStr ".git" then []
    else if GITHUB_REPO_RE_match url.asStr then []
    else ["plugin.source.url must be a valid GitHub repo URL or end with .git"]
  else []

/-- `parse_plugin_entry` (source lines 435-480), returning
`(name, tier, url, errors)` in source append order; `None` returns are
`jnull`. -/
def parse_plugin_entry (p : JVal) : JVal × JVal × JVal × List String :=
  (pyGet p "name", entry_tier p, entry_source_url p,
   entry_name_errors p ++ entry_tier_errors p ++ entry_tags_errors p ++
     entry_source_type_errors p ++ entry_url_presence_errors p ++ entry_url_format_errors p)

/-!
## Marketplace index schema (source lines 256-287)
-/

/-- The duplicate-name errors of `validate_marketplace_schema`
(source lines 277-285); `seen` is a Python set, modelled as the list of
insertions. -/
def dup_name_errors (ps : List JVal) : List String :=
  (ps.foldl (fun (acc : List JVal × List String) p =>
      let n := pyGet p "name"
      if !truthy n then acc
      else if containsJ acc.1 n then
        (acc.1 ++ [n], acc.2 ++ ["duplicate plugin.name detected: " ++ pyStr n])
      else (acc.1 ++ [n], acc.2))
    ([], [])).2

/-- `validate_marketplace_schema` (source lines 256-287). -/
def validate_marketplace_schema (m : JVal) : List String :=
  let name := pyGet m "name"
  let e1 := if !truthy name || !name.isStr then ["marketplace.name missing or invalid"] else []
  let version := pyGet m "version"
  let e2 :=
    if !truthy version || !version.isStr || !SEMVER_RE_match version.asStr then
      ["marketplace.version missing or not semver (e.g. 1.0.0)"]
    else []
  let owner := getKeyD m "owner" (JVal.jobj [])
  let e3 :=
    if !owner.isObj || !truthy (pyGet owner "name") then ["marketplace.owner.name missing"]
    else []
  let plugins := pyGet m "plugins"
  let e4 := if !plugins.isArr then ["marketplace.plugins must be an array"] else []
  let e5 := if plugins.isArr then dup_name_errors plugins.asArr else []
  e1 ++ e2 ++ e3 ++ e4 ++ e5

/-!
## Plugin repository validation (source lines 670-794)
-/

/-- Policy caps (source lines 35-37). -/
def MAX_FILE_SIZE_BYTES : Nat := 2 * 1024 * 1024

def MAX_REPO_SIZE_BYTES : Nat := 20 * 1024 * 1024

def MAX_FILES_COUNT : Nat := 2500

/-- DISALLOWED_EXTENSIONS (source lines 48-55). -/
def DISALLOWED_EXTENSIONS : List String :=
  [".exe", ".dll", ".so", ".dylib", ".bin", ".dat",
   ".zip", ".rar", ".7z", ".tar", ".gz", ".bz2", ".xz",
   ".png", ".jpg", ".jpeg", ".webp", ".gif", ".mp4", ".mov", ".avi", ".mkv",
   ".pdf", ".wasm"]

/-- TEXT_EXTENSIONS (source lines 58-62). -/
def TEXT_EXTENSIONS : List String :=
  [".md", ".txt", ".json", ".yml", ".yaml", ".toml",
   ".py", ".js", ".ts", ".sh", ".zsh", ".bash",
   ".rb", ".go", ".rs", ".java", ".kt", ".swift"]

/-- A cloned plugin repository as observed by the validator.
`manifestPath` is the result of `exists_any` over
POSSIBLE_PLUGIN_MANIFESTS; `manifestJson` the result of `json.loads` on
that file (`none` models a JSONDecodeError); the three booleans record
the filesystem existence checks; `files` is the output of
`walk_repo_files` (regular files, SKIP_DIRS pruned). -/
structure Repo where
  manifestPath : Option String
  manifestJson : Option JVal
  hasReadme : Bool
  hasLicense : Bool
  hasContentDir : Bool
  files : List RFile

/-- The body of the per-file loop of `validate_plugin_repo` (source
lines 752-776), returning its `(errors, warnings)` contribution. -/
def file_checks (f : RFile) : List String × List String :=
  if f.isSymlink then
    ([], ["Symlink detected: " ++ relString f ++ " (review manually)"])
  else
    let e1 :=
      if f.size > MAX_FILE_SIZE_BYTES then
        ["File too large: " ++ relString f ++ " (" ++ toString f.size ++ " bytes) exceeds " ++
          toString MAX_FILE_SIZE_BYTES ++ " bytes"]
      else []
    let ext := pyLower f.suffix
    let e2 :=
      if DISALLOWED_EXTENSIONS.contains ext then
        ["Disallowed file type in repo: " ++ relString f ++ " (" ++ ext ++ ")"]
      else []
    let e3 :=
      if !TEXT_EXTENSIONS.contains ext && f.size > 0 && f.probablyBinary then
        ["Binary/suspicious file detected: " ++ relString f]
      else []
    (e1 ++ e2 ++ e3, [])

/-- The file stem (`Path.stem`): the final component without its
suffix. -/
def fileStem (f : RFile) : String :=
  let name := (f.parts.getLast? ).getD ""
  if f.suffix != "" && pyEndsWith name f.suffix then
    String.mk (name.data.take (name.data.length - f.suffix.data.length))
  else name

/-- `extract_command_names` (source lines 670-680): stems of
`commands/**/*.{md,txt}` files, as a set (modelled as a deduplicated
list). -/
def extract_command_names (files : List RFile) : List String :=
  files.foldl (fun acc f =>
    if f.parts.head? == some "commands" &&
        (pyLower f.suffix == ".md" || pyLower f.suffix == ".txt") then
      let s := pyStrip (fileStem f)
      if acc.contains s then acc else acc ++ [s]
    else acc) []

/-- The allowed-domains extraction of `validate_plugin_repo` (source
lines 729-733). -/
def repo_allowed_domains (m : JVal) : List JVal :=
  let caps := getKeyD m "capabilities" (JVal.jobj [])
  if truthy caps then pySet (getKeyD (getKeyD caps "network" (JVal.jobj [])) "domains" (JVal.jarr []))
  else []

/-- The result record of `validate_plugin_repo`. -/
structure RepoOut where
  errors : List String
  warnings : List String
  commands : List String
  manifest : Option JVal
  network_detected : Bool
  detected_domains : List String

/-- The structural existence errors of `validate_plugin_repo` (source
lines 696-708). -/
def repo_structure_errors (repo : Repo) : List String :=
  (if repo.manifestPath.isNone then
     ["Missing plugin manifest (expected one of: plugin.json, .claude-plugin/plugin.json)"]
   else []) ++
  (if !repo.hasReadme then ["Missing required file: README.md"] else []) ++
  (if !repo.hasLicense then ["Missing required file: LICENSE"] else []) ++
  (if !repo.hasContentDir then
     ["No content dirs found (expected one of: commands, agents, hooks, skills)"]
   else [])

/-- The manifest-processing block of `validate_plugin_repo` (source
lines 710-738): `(errors, warnings, manifest_data, allowed_domains)`. -/
def repo_manifest_block (repo : Repo) (tier : String) :
    List String × List String × Option JVal × List JVal :=
  match repo.manifestPath with
  | none => ([], [], none, [])
  | some mp =>
    match repo.manifestJson with
    | none => (["Invalid JSON in " ++ mp], [], none, [])
    | some m =>
      ((validate_plugin_manifest_schema m tier).1 ++
         validate_tier_policy m tier (manifest_is_legacy m),
       (validate_plugin_manifest_schema m tier).2, some m, repo_allowed_domains m)

/-- The file-count error (source lines 743-744). -/
def repo_count_errors (files : List RFile) : List String :=
  if files.length > MAX_FILES_COUNT then
    ["Repo contains too many files: " ++ toString files.length ++ " exceeds " ++
      toString MAX_FILES_COUNT]
  else []

/-- The repo-size error (source lines 746-750). -/
def repo_size_errors (files : List RFile) : List String :=
  if (files.map (fun f => f.size)).sum > MAX_REPO_SIZE_BYTES then
    ["Repo too large: " ++ toString (files.map (fun f => f.size)).sum ++ " bytes exceeds " ++
      toString MAX_REPO_SIZE_BYTES ++ " bytes"]
  else []

/-- The per-file loop errors (source lines 752-776). -/
def repo_file_errors (files : List RFile) : List String :=
  files.flatMap (fun f => (file_checks f).1)

/-- The per-file loop warnings (source lines 752-776). -/
def repo_file_warnings (files : List RFile) : List String :=
  files.flatMap (fun f => (file_checks f).2)

/-- The no-commands warning (source lines 778-780). -/
def repo_command_warnings (files : List RFile) : List String :=
  if (extract_command_names files).length == 0 then
    ["No commands detected under commands/ (ok if plugin uses hooks/agents only)"]
  else []

/-- The consistency errors (source lines 789-792); `check_consistency`
runs only when `manifest_data` is truthy. -/
def repo_consistency_errors (tier : String) (mopt : Option JVal) (sec : ScanOut) :
    List String :=
  match mopt with
  | some m =>
      if truthy m then check_consistency tier m sec.network_detected sec.detected_domains
      else []
  | none => []

/-- `validate_plugin_repo` (source lines 683-794): structure checks,
manifest schema and tier policy, size and per-file checks, security
scan, consistency check, in source append order. -/
def validate_plugin_repo (eng : ReEngine) (repo : Repo) (tier : String) : RepoOut :=
  let mb := repo_manifest_block repo tier
  let sec := security_scan_repo eng repo.files tier mb.2.2.2
  { errors := repo_structure_errors repo ++ mb.1 ++ repo_count_errors repo.files ++
      repo_size_errors repo.files ++ repo_file_errors repo.files ++
      sec.errors ++ repo_consistency_errors tier mb.2.2.1 sec
    warnings := mb.2.1 ++ repo_file_warnings repo.files ++
      repo_command_warnings repo.files ++ sec.warnings
    commands := extract_command_names repo.files
    manifest := mb.2.2.1
    network_detected := sec.network_detected
    detected_domains := sec.detected_domains }

/-!
## Marketplace driver (source lines 801-930)
-/

/-- One aggregated result per plugin (source lines 163-171; the field
types follow the runtime values, which Python does not constrain to
strings on the error paths). -/
structure PluginResult where
  name : JVal
  tier : JVal
  url : JVal
  errors : List String
  warnings : List String
  network_detected : Bool
  detected_domains : List String

/-- The whole-run input: the parsed marketplace index and, per plugin
position, the outcome of `git clone` (`none` = clone failure). -/
structure MainInput where
  marketplace : JVal
  fetch : Nat → Option Repo

/-- Python `s.replace(old, new)` for one-character arguments. -/
def pyReplace1 (old new : Char) (s : String) : String :=
  String.mk (s.data.map (fun c => if c = old then new else c))

/-- `name.replace("/", "_").replace(":", "_")` (source line 836). -/
def safe_dir_name (n : JVal) : String :=
  pyReplace1 ':' '_' (pyReplace1 '/' '_' (pyStr n))

/-- `cleanup_tmp` (source lines 198-200): removes the run-level
temporary root and with it every per-plugin clone directory. -/
def cleanup_tmp (dirs : List String) : List String := []

/-- One iteration of the driver loop (source lines 822-872): parse the
entry, clone, validate; returns the `PluginResult` and the updated list
of per-plugin clone directories existing under the temp root. -/
def main_step (eng : ReEngine) (inp : MainInput) (idx : Nat) (pl : JVal)
    (dirs : List String) : PluginResult × List String :=
  let pe := parse_plugin_entry pl
  let name := pe.1
  let tier := pe.2.1
  let url := pe.2.2.1
  let entry_errors := pe.2.2.2
  if !entry_errors.isEmpty || !truthy name || !truthy tier || !truthy url then
    ({ name := if truthy name then name else JVal.jstr ("plugin_" ++ toString idx)
       tier := if truthy tier then tier else JVal.jstr "unknown"
       url := if truthy url then url else JVal.jstr "missing"
       errors := if !entry_errors.isEmpty then entry_errors else ["Invalid marketplace entry"]
       warnings := []
       network_detected := false
       detected_domains := [] }, dirs)
  else
    match inp.fetch idx with
    | none =>
        ({ name := name, tier := tier, url := url
           errors := ["Could not clone " ++ pyStr url]
           warnings := []
           network_detected := false
           detected_domains := [] }, dirs)
    | some repo =>
        let dirs := dirs ++ [safe_dir_name name]
        let ro := validate_plugin_repo eng repo tier.asStr
        ({ name := name, tier := tier, url := url
           errors := ro.errors
           warnings := ro.warnings
           network_detected := ro.network_detected
           detected_domains := ro.detected_domains }, dirs)

/-- The outcome of one run of `main` (source lines 801-930): the exit
code, the aggregated results, the per-plugin clone directories existing
right after each loop iteration, and the directories existing after
`cleanup_tmp`. -/
structure MainOut where
  exit : Nat
  results : List PluginResult
  dirTrace : List (List String)
  finalDirs : List String

/-- The driver loop folded over the enumerated plugin entries. -/
def main_loop (eng : ReEngine) (inp : MainInput) :
    List (Nat × JVal) → List PluginResult → List String → List (List String) →
    List PluginResult × List String × List (List String)
  | [], results, dirs, trace => (results, dirs, trace)
  | ip :: rest, results, dirs, trace =>
      let st := main_step eng inp ip.1 ip.2 dirs
      main_loop eng inp rest (results ++ [st.1]) st.2 (trace ++ [st.2])

/-- `main` (source lines 801-930): index schema check, per-plugin loop,
run-level cleanup, exit code 1 iff some result has errors. -/
def run_main (eng : ReEngine) (inp : MainInput) : MainOut :=
  let schema_errors := validate_marketplace_schema inp.marketplace
  if !schema_errors.isEmpty then
    { exit := 1, results := [], dirTrace := [], finalDirs := [] }
  else
    let plugins := getKeyD inp.marketplace "plugins" (JVal.jarr [])
    if !truthy plugins then
      { exit := 0, results := [], dirTrace := [], finalDirs := [] }
    else
      let lp := main_loop eng inp (numberFrom 0 plugins.asArr) [] [] []
      let failed := lp.1.filter (fun r => !r.errors.isEmpty)
      { exit := if !failed.isEmpty then 1 else 0
        results := lp.1
        dirTrace := lp.2.2
        finalDirs := cleanup_tmp lp.2.1 }

/-!
## Catalog generator (scripts/generate-catalog.py)

The catalog file is modelled at the line level: `generate_catalog`
produces the `lines` list the source joins with newlines, and the
`--check` comparison filters out the generation-timestamp lines from
both sides exactly as `strip_timestamp` in the source does.
-/

/-- `PluginInfo` (generate-catalog.py lines 25-41); fields keep the
JSON values the extractor stores (Python does not constrain them). -/
structure PluginInfo where
  name : JVal
  tier : JVal
  description : JVal
  url : JVal
  tags : JVal
  version : JVal := JVal.jnull
  network_mode : JVal := JVal.jstr "none"
  network_domains : JVal := JVal.jnull
  fs_read : JVal := JVal.jnull
  fs_write : JVal := JVal.jnull
  commands_allow : JVal := JVal.jnull
  commands_deny : JVal := JVal.jnull
  secrets_required : JVal := JVal.jnull
  risk_egress : JVal := JVal.jnull
  risk_notes : JVal := JVal.jnull

/-- `extract_plugin_info` (generate-catalog.py lines 69-123); `mf` is
the parsed manifest of the cloned repo, `none` when the clone failed,
no manifest file exists, or the manifest JSON does not parse (all three
leave the defaults in place). -/
def extract_plugin_info (pl : JVal) (mf : Option JVal) : PluginInfo :=
  let tier0 :=
    if truthy (pyGet pl "tier") then pyGet pl "tier"
    else getKeyD pl "category" (JVal.jstr "unknown")
  let tier := if jvalEqStr tier0 "official" then JVal.jstr "curated" else tier0
  let base : PluginInfo :=
    { name := getKeyD pl "name" (JVal.jstr "unknown")
      tier := tier
      description := getKeyD pl "description" (JVal.jstr "")
      url := getKeyD (getKeyD pl "source" (JVal.jobj [])) "url" (JVal.jstr "")
      tags := getKeyD pl "tags" (JVal.jarr []) }
  match mf with
  | none => base
  | some m =>
      let caps := getKeyD m "capabilities" (JVal.jobj [])
      let network := getKeyD caps "network" (JVal.jobj [])
      let fs := getKeyD caps "filesystem" (JVal.jobj [])
      let cmds := getKeyD caps "commands" (JVal.jobj [])
      let secrets := getKeyD caps "secrets" (JVal.jobj [])
      let risk := getKeyD m "risk" (JVal.jobj [])
      { base with
        version := pyGet m "version"
        network_mode := getKeyD network "mode" (JVal.jstr "none")
        network_domains := getKeyD network "domains" (JVal.jarr [])
        fs_read := getKeyD fs "read" (JVal.jarr [])
        fs_write := getKeyD fs "write" (JVal.jarr [])
        commands_allow := getKeyD cmds "allow" (JVal.jarr [])
        commands_deny := getKeyD cmds "deny" (JVal.jarr [])
        secrets_required := getKeyD secrets "required" (JVal.jarr [])
        risk_egress := pyGet risk "dataEgress"
        risk_notes := pyGet risk "notes" }

/-- `", ".join(...)` over a JSON list value rendered with `str`. -/
def joinComma (v : JVal) : String := pyJoin ", " (v.asArr.map pyStr)

/-- `network_badge` (generate-catalog.py lines 126-133). -/
def network_badge (p : PluginInfo) : String :=
  if jvalEqStr p.network_mode "none" then
    "![None](https://img.shields.io/badge/Network-None-success)"
  else if jvalEqStr p.network_mode "allowlist" then
    let domains := if truthy p.network_domains then p.network_domains else JVal.jarr []
    "![Allowlist](https://img.shields.io/badge/Network-Allowlist-yellow) `" ++
      joinComma domains ++ "`"
  else "![Unknown](https://img.shields.io/badge/Network-Unknown-gray)"

/-- `tier_badge` (generate-catalog.py lines 136-142). -/
def tier_badge (tier : JVal) : String :=
  if jvalEqStr tier "curated" then
    "![Curated](https://img.shields.io/badge/Tier-Curated-7c3aed)"
  else if jvalEqStr tier "community" then
    "![Community](https://img.shields.io/badge/Tier-Community-blue)"
  else
    "![" ++ pyStr tier ++ "](https://img.shields.io/badge/Tier-" ++ pyStr tier ++ "-gray)"

/-- `risk_badge` (generate-catalog.py lines 145-151). -/
def risk_badge (egress : JVal) : String :=
  if !truthy egress then ""
  else
    let color :=
      if jvalEqStr egress "low" then "success"
      else if jvalEqStr egress "medium" then "yellow"
      else if jvalEqStr egress "high" then "red"
      else "gray"
    "![Risk: " ++ pyStr egress ++ "](https://img.shields.io/badge/Risk-" ++ pyStr egress ++
      "-" ++ color ++ ")"

/-- One curated-plugin section (generate-catalog.py lines 188-214). -/
def curated_section (p : PluginInfo) : List String :=
  ["### " ++ pyStr p.name, "",
   tier_badge p.tier ++ " " ++ network_badge p, "",
   "**Description:** " ++ pyStr p.description, ""] ++
  (if truthy p.version then ["**Version:** " ++ pyStr p.version] else []) ++
  ["**Repository:** [" ++ pyStr p.url ++ "](" ++ pyStr p.url ++ ")"] ++
  (if truthy p.tags then ["**Tags:** " ++ joinComma p.tags] else []) ++
  ["", "| Capability | Value |", "|------------|-------|", "| Network | None |"] ++
  (if truthy p.fs_write then
     ["| FS Writes | `" ++ joinComma (JVal.jarr (p.fs_write.asArr.take 3)) ++ "` |"]
   else []) ++
  (if truthy p.commands_allow then
     ["| Commands Allow | `" ++ joinComma (JVal.jarr (p.commands_allow.asArr.take 3)) ++ "` |"]
   else []) ++
  (if truthy p.commands_deny then
     ["| Commands Deny | `" ++ joinComma (JVal.jarr (p.commands_deny.asArr.take 3)) ++ "` |"]
   else []) ++
  (if truthy p.secrets_required then
     ["| Secrets Required | `" ++ joinComma p.secrets_required ++ "` |"]
   else []) ++
  [""]

/-- One community-plugin section (generate-catalog.py lines 228-255). -/
def community_section (p : PluginInfo) : List String :=
  ["### " ++ pyStr p.name, "",
   tier_badge p.tier ++ " " ++ network_badge p ++ " " ++ risk_badge p.risk_egress, "",
   "**Description:** " ++ pyStr p.description, ""] ++
  (if truthy p.version then ["**Version:** " ++ pyStr p.version] else []) ++
  ["**Repository:** [" ++ pyStr p.url ++ "](" ++ pyStr p.url ++ ")"] ++
  (if truthy p.tags then ["**Tags:** " ++ joinComma p.tags] else []) ++
  ["", "| Capability | Value |", "|------------|-------|"] ++
  (if jvalEqStr p.network_mode "allowlist" && truthy p.network_domains then
     ["| Network Domains | `" ++ joinComma p.network_domains ++ "` |"]
   else []) ++
  (if truthy p.fs_write then
     ["| FS Writes | `" ++ joinComma (JVal.jarr (p.fs_write.asArr.take 3)) ++ "` |"]
   else []) ++
  (if truthy p.secrets_required then
     ["| Secrets Required | `" ++ joinComma p.secrets_required ++ "` |"]
   else []) ++
  (if truthy p.risk_egress then ["| Risk Level | " ++ pyStr p.risk_egress ++ " |"] else []) ++
  (if truthy p.risk_notes then ["| Risk Notes | " ++ pyStr p.risk_notes ++ " |"] else []) ++
  [""]

/-- Everything `generate_catalog` appends after the timestamp line
(generate-catalog.py lines 164-274). -/
def catalog_rest (plugins : List PluginInfo) (marketplace : JVal) : List String :=
  let curated := plugins.filter (fun p => jvalEqStr p.tier "curated")
  let community := plugins.filter (fun p => jvalEqStr p.tier "community")
  ["",
   "> This file is auto-generated by `scripts/generate-catalog.py`. Do not edit manually.",
   "",
   "## Summary",
   "",
   "- **Total plugins:** " ++ toString plugins.length,
   "- **Curated:** " ++ toString curated.length ++ " (no network access)",
   "- **Community:** " ++ toString community.length ++ " (network via allowlist)",
   "",
   "---",
   "",
   "## Curated Plugins",
   "",
   "Security-first plugins with no network access. Recommended for teams.",
   ""] ++
  (if curated.isEmpty then ["*No curated plugins yet.*", ""]
   else curated.flatMap curated_section) ++
  ["---",
   "",
   "## Community Plugins",
   "",
   "Community-contributed plugins. May use network via explicit allowlist.",
   ""] ++
  (if community.isEmpty then
     ["*No community plugins yet. [Submit yours!](CONTRIBUTING.md)*", ""]
   else community.flatMap community_section) ++
  ["---",
   "",
   "## Permission Badges Legend",
   "",
   "| Badge | Meaning |",
   "|-------|---------|",
   "| ![Curated](https://img.shields.io/badge/Tier-Curated-7c3aed) | Security-first, no network |",
   "| ![Community](https://img.shields.io/badge/Tier-Community-blue) | Network via allowlist |",
   "| ![None](https://img.shields.io/badge/Network-None-success) | No network access |",
   "| ![Allowlist](https://img.shields.io/badge/Network-Allowlist-yellow) | Specific domains only |",
   "| ![Risk: low](https://img.shields.io/badge/Risk-low-success) | Low data egress risk |",
   "| ![Risk: medium](https://img.shields.io/badge/Risk-medium-yellow) | Medium data egress risk |",
   "| ![Risk: high](https://img.shields.io/badge/Risk-high-red) | High data egress risk |",
   ""]

/-- `generate_catalog` (generate-catalog.py lines 154-276), as the list
of appended lines; `ts` is the `datetime.utcnow().strftime(...)`
timestamp. -/
def generate_catalog (plugins : List PluginInfo) (marketplace : JVal) (ts : String) :
    List String :=
  ["# Plugin Catalog",
   "",
   "**Marketplace:** " ++ pyStr (getKeyD marketplace "name" (JVal.jstr "Unknown")),
   "**Version:** " ++ pyStr (getKeyD marketplace "version" (JVal.jstr "Unknown"))] ++
  ["**Generated:** " ++ ts] ++
  catalog_rest plugins marketplace

/-- The timestamp-stripping comparison of `--check` mode
(generate-catalog.py lines 327-329): drop every line starting with
`**Generated:**`. -/
def strip_timestamp (ls : List String) : List String :=
  ls.filter (fun l => !pyStartsWith l "**Generated:**")

/-- The run input of the catalog generator: the parsed marketplace
index and the per-position manifest fetched from each plugin repo. -/
structure CatInput where
  marketplace : JVal
  manifests : Nat → Option JVal

/-- The `PluginInfo` list a catalog run builds (generate-catalog.py
lines 300-318). -/
def catalog_infos (inp : CatInput) : List PluginInfo :=
  (numberFrom 0 (getKeyD inp.marketplace "plugins" (JVal.jarr [])).asArr).map
    (fun ip => extract_plugin_info ip.2 (inp.manifests ip.1))

/-- Default mode of `main` in generate-catalog.py (lines 279-343): the
content written to CATALOG.md, as lines. -/
def catalog_main_write (inp : CatInput) (ts : String) : List String :=
  generate_catalog (catalog_infos inp) inp.marketplace ts

/-- `--check` mode of `main` in generate-catalog.py (lines 279-343):
exit code given the on-disk catalog (`none` = file missing).  With no
plugins in the index the source returns 0 before comparing. -/
def catalog_main_check (onDisk : Option (List String)) (inp : CatInput) (ts : String) : Nat :=
  if !truthy (getKeyD inp.marketplace "plugins" (JVal.jarr [])) then 0
  else
    match onDisk with
    | none => 1
    | some existing =>
        if strip_timestamp existing == strip_timestamp (catalog_main_write inp ts) then 0
        else 1

/-!
## Concrete regex engines used by witnesses and counterexamples
-/

/-- Literal substring test (`needle` occurs in `hay`). -/
def containsLit (needle hay : String) : Bool := decide (needle.data <:+: hay.data)

/-- An engine under which no scan pattern matches anything (the
behaviour of `re.search` on content that matches no table pattern). -/
def noMatchEngine : ReEngine :=
  { search := fun _ _ => none
    domain1 := fun _ => none }

/-- A concrete engine implementing two literal patterns of the source
tables exactly as `re.search` does on the lowercase inputs used below:
pattern 208 is the literal `Invoke-WebRequest` and pattern 304 is
`(?i)analytics\.track` (matched here on its exact lowercase spelling);
`match.group(0)` is the literal itself.  All other patterns match
nothing, which agrees with `re.search` on every line these witnesses
and counterexamples contain. -/
def demoEngine : ReEngine :=
  { search := fun pid line =>
      if pid == 208 && containsLit "Invoke-WebRequest" line then some "Invoke-WebRequest"
      else if pid == 304 && containsLit "analytics.track" line then some "analytics.track"
      else none
    domain1 := fun _ => none }

/-!
## Helper lemmas
-/

/-- `startswith` only looks at the first `|p|` characters: appending
beyond a sufficiently long left part cannot change it. -/
theorem pyStartsWith_append (c r p : String) (h : p.data.length ≤ c.data.length) :
    pyStartsWith (c ++ r) p = pyStartsWith c p := by
  have key : (p.data <+: c.data ++ r.data) ↔ (p.data <+: c.data) := by
    rw [List.prefix_iff_eq_take, List.prefix_iff_eq_take, List.take_append_of_le_length h]
  simp only [pyStartsWith, String.data_append]
  rw [Bool.eq_iff_iff]
  simp [List.isPrefixOf_iff_prefix, key]

/-- Membership in `enumerate(xs, n)`. -/
theorem numberFrom_mem {α : Type} {n i : Nat} {x : α} {xs : List α} :
    (i, x) ∈ numberFrom n xs ↔
      ∃ k, ∃ h : k < xs.length, i = n + k ∧ xs.get ⟨k, h⟩ = x := by
  induction xs generalizing n i with
  | nil => simp [numberFrom]
  | cons y ys ih =>
    simp only [numberFrom, List.mem_cons]
    constructor
    · intro hmem
      rcases hmem with h | h
      · rw [Prod.mk.injEq] at h
        refine ⟨0, by simp, by omega, ?_⟩
        simp [h.2.symm]
      · rcases (ih (n := n + 1)).mp h with ⟨k, hk, hi, hx⟩
        refine ⟨k + 1, by simpa using Nat.succ_lt_succ hk, by omega, ?_⟩
        simpa using hx
    · rintro ⟨k, hk, hi, hx⟩
      cases k with
      | zero =>
        left
        rw [Prod.mk.injEq]
        simp only [List.get] at hx
        exact ⟨by omega, hx.symm⟩
      | succ k' =>
        right
        apply (ih (n := n + 1)).mpr
        exact ⟨k', by simpa using Nat.lt_of_succ_lt_succ hk, by omega, by simpa using hx⟩

/-- Inversion and introduction for the shared scan body: a finding is
exactly a pattern match on a non-comment line, with the snippet
post-processed. -/
theorem scan_generic_mem {eng : ReEngine} {pats : List (Nat × String)}
    {snip : String → String} {content : String} {t : Finding} :
    t ∈ scan_generic eng pats snip content ↔
      ∃ k, ∃ h : k < (pySplit '\n' content).length,
        isCommentLine ((pySplit '\n' content).get ⟨k, h⟩) = false ∧
        ∃ p ∈ pats, ∃ m,
          eng.search p.1 ((pySplit '\n' content).get ⟨k, h⟩) = some m ∧
          t = (1 + k, p.2, snip m) := by
  unfold scan_generic
  rw [List.mem_flatMap]
  constructor
  · rintro ⟨⟨i, line⟩, hmem, hin⟩
    rw [numberFrom_mem] at hmem
    obtain ⟨k, hk, hi, hline⟩ := hmem
    by_cases hc : isCommentLine line = true
    · simp [hc] at hin
    · rw [Bool.not_eq_true] at hc
      simp only [hc, Bool.false_eq_true, if_false] at hin
      rw [List.mem_filterMap] at hin
      obtain ⟨p, hp, hpm⟩ := hin
      cases hm : eng.search p.1 line with
      | none => rw [hm] at hpm; simp at hpm
      | some m =>
        rw [hm] at hpm
        simp only [Option.map_some', Option.some.injEq] at hpm
        refine ⟨k, hk, by rw [hline]; exact hc, p, hp, m, by rw [hline]; exact hm, ?_⟩
        rw [← hpm, hi]
  · rintro ⟨k, hk, hc, p, hp, m, hm, ht⟩
    refine ⟨(1 + k, (pySplit '\n' content).get ⟨k, hk⟩), ?_, ?_⟩
    · rw [numberFrom_mem]; exact ⟨k, hk, rfl, rfl⟩
    · simp only [hc, Bool.false_eq_true, if_false]
      rw [List.mem_filterMap]
      exact ⟨p, hp, by rw [hm]; simp [ht]⟩

/-- A key that is present makes the object truthy. -/
theorem truthy_of_hasKey {m : JVal} {k : String} (h : hasKey m k = true) :
    truthy m = true := by
  cases m with
  | jobj kvs =>
    cases kvs with
    | nil => simp [hasKey] at h
    | cons kv rest => simp [truthy]
  | jnull => simp [hasKey] at h
  | jbool b => simp [hasKey] at h
  | jnum n => simp [hasKey] at h
  | jstr s => simp [hasKey] at h
  | jarr xs => simp [hasKey] at h

/-- Lookup on a falsy value always misses. -/
theorem getKey_of_not_truthy {v : JVal} (h : truthy v = false) (k : String) :
    getKey v k = none := by
  cases v <;> simp_all [truthy, getKey]

/-- The effective network mode of `validate_tier_policy` and the
declared mode of `check_consistency` agree on every manifest value. -/
theorem tier_policy_mode_eq_consistency_mode (m : JVal) :
    tier_policy_mode m = consistency_mode m := by
  unfold tier_policy_mode consistency_mode
  by_cases hc : truthy (getKeyD m "capabilities" (JVal.jobj [])) = true
  · simp only [hc, if_true]
    by_cases hn :
        truthy (getKeyD (getKeyD m "capabilities" (JVal.jobj [])) "network" (JVal.jobj [])) = true
    · simp only [hn, if_true]
    · rw [Bool.not_eq_true] at hn
      simp only [hn, Bool.false_eq_true, if_false]
      rw [show getKeyD (getKeyD (getKeyD m "capabilities" (JVal.jobj []))
            "network" (JVal.jobj [])) "mode" (JVal.jstr "none") = JVal.jstr "none" from by
        rw [getKeyD, getKey_of_not_truthy hn]; rfl]
  · rw [Bool.not_eq_true] at hc
    simp only [hc, Bool.false_eq_true, if_false]
    rw [show getKeyD (getKeyD m "capabilities" (JVal.jobj [])) "network" (JVal.jobj []) =
          JVal.jobj [] from by
      rw [getKeyD, getKey_of_not_truthy hc]; rfl]
    rfl

/-!
## Concrete example data used by witnesses and counterexamples
-/

/-- A manifest that has `capabilities` but lacks `policyTier` and
`risk`. -/
def manifestCapsOnly : JVal := JVal.jobj
  [("name", JVal.jstr "x"),
   ("capabilities", JVal.jobj [("network", JVal.jobj [("mode", JVal.jstr "none")])])]

/-- A manifest with both `policyTier` (community) and `capabilities`
present but no `risk`. -/
def manifestBothNoRisk : JVal := JVal.jobj
  [("name", JVal.jstr "x"),
   ("policyTier", JVal.jstr "community"),
   ("capabilities", JVal.jobj [("network", JVal.jobj [("mode", JVal.jstr "none")])])]

/-- A schema-valid curated manifest. -/
def curatedManifest : JVal := JVal.jobj
  [("name", JVal.jstr "aplug"), ("version", JVal.jstr "1.0.0"),
   ("description", JVal.jstr "d"), ("policyTier", JVal.jstr "curated"),
   ("capabilities", JVal.jobj [("network", JVal.jobj [("mode", JVal.jstr "none")])])]

/-- A schema-valid community manifest (mode none, low risk). -/
def communityManifest : JVal := JVal.jobj
  [("name", JVal.jstr "bplug"), ("version", JVal.jstr "1.0.0"),
   ("description", JVal.jstr "d"), ("policyTier", JVal.jstr "community"),
   ("capabilities", JVal.jobj [("network", JVal.jobj [("mode", JVal.jstr "none")])]),
   ("risk", JVal.jobj [("dataEgress", JVal.jstr "low")])]

/-- A harmless markdown command file. -/
def cleanMd : RFile :=
  { parts := ["commands", "a.md"], suffix := ".md", content := "hello",
    size := 5, isSymlink := false, probablyBinary := false }

/-- A harmless Python command file (a scan candidate). -/
def cleanPy : RFile :=
  { parts := ["commands", "ok.py"], suffix := ".py", content := "x = 1",
    size := 5, isSymlink := false, probablyBinary := false }

/-- A markdown file under `commands/` whose single line contains
`Invoke-WebRequest`, a shell-network pattern; its `.md` extension is
not in SCANNABLE_EXTENSIONS, so the scanner never reads it. -/
def evilMd : RFile :=
  { parts := ["commands", "evil.md"], suffix := ".md",
    content := "Invoke-WebRequest http://x.example.com",
    size := 38, isSymlink := false, probablyBinary := false }

/-- A JavaScript command file whose single line is a telemetry call and
matches no other pattern. -/
def telFile : RFile :=
  { parts := ["commands", "t.js"], suffix := ".js",
    content := "analytics.track(pageview)",
    size := 25, isSymlink := false, probablyBinary := false }

/-- A curated repository that passes every check except that
`commands/evil.md` matches a shell-network pattern. -/
def evilRepo : Repo :=
  { manifestPath := some "plugin.json", manifestJson := some curatedManifest,
    hasReadme := true, hasLicense := true, hasContentDir := true, files := [evilMd] }

/-- A fully passing curated repository with one scannable file. -/
def cleanCuratedRepo : Repo :=
  { manifestPath := some "plugin.json", manifestJson := some curatedManifest,
    hasReadme := true, hasLicense := true, hasContentDir := true,
    files := [cleanMd, cleanPy] }

/-- A fully passing community repository. -/
def communityRepo : Repo :=
  { manifestPath := some "plugin.json", manifestJson := some communityManifest,
    hasReadme := true, hasLicense := true, hasContentDir := true, files := [cleanMd] }

/-- A schema-valid marketplace index with one curated plugin. -/
def goodIndex : JVal := JVal.jobj
  [("name", JVal.jstr "mkt"), ("version", JVal.jstr "1.0.0"),
   ("owner", JVal.jobj [("name", JVal.jstr "o")]),
   ("plugins", JVal.jarr [JVal.jobj
     [("name", JVal.jstr "aplug"), ("tier", JVal.jstr "curated"),
      ("source", JVal.jobj [("type", JVal.jstr "git"),
                            ("url", JVal.jstr "https://github.com/a/b")])]])]

/-- A run over `goodIndex` whose single clone succeeds and validates
cleanly. -/
def exampleRun : MainInput :=
  { marketplace := goodIndex, fetch := fun _ => some cleanCuratedRepo }

/-- An index that fails schema validation (every required field
missing). -/
def badIndex : JVal := JVal.jobj []

/-- A marketplace entry whose source URL is an https URL on a
non-GitHub host that does not end in `.git`. -/
def gitlabEntry : JVal := JVal.jobj
  [("name", JVal.jstr "aplug"), ("tier", JVal.jstr "curated"),
   ("source", JVal.jobj [("type", JVal.jstr "git"),
                         ("url", JVal.jstr "https://gitlab.example.com/a/b")])]

/-- A file one byte over MAX_FILE_SIZE_BYTES. -/
def bigFile : RFile :=
  { parts := ["commands", "big.md"], suffix := ".md", content := "",
    size := 2097153, isSymlink := false, probablyBinary := false }

/-- A repository containing `bigFile`. -/
def bigRepo : Repo :=
  { manifestPath := some "plugin.json", manifestJson := some curatedManifest,
    hasReadme := true, hasLicense := true, hasContentDir := true,
    files := [cleanMd, bigFile] }

/-!
## Claim C1
-/

/-- The risk-metadata acceptance chain of the community risk check
(source lines 374-381): risk truthy, a dict, with a valid dataEgress. -/
def manifest_risk_ok (m : JVal) : Bool :=
  truthy (pyGet m "risk") && (pyGet m "risk").isObj &&
    egressValid (pyGet (pyGet m "risk") "dataEgress")

/-- C1, counterexample.  The claim says a manifest with `capabilities`
present but `policyTier` absent is not legacy, so for an effective
community tier the validator must report an error when
`risk.dataEgress` is missing.  On `manifestCapsOnly` (capabilities
present, policyTier absent, no risk at all) the code sets
`is_legacy = True` (either field missing suffices, source lines
312-318), skips the risk requirement (line 373), and returns no
errors. -/
theorem claim_C1_counterexample :
    hasKey manifestCapsOnly "capabilities" = true ∧
    hasKey manifestCapsOnly "policyTier" = false ∧
    manifest_risk_ok manifestCapsOnly = false ∧
    manifest_is_legacy manifestCapsOnly = true ∧
    (validate_plugin_manifest_schema manifestCapsOnly "community").1 = [] := by
  decide

/-- C1, amended.  A manifest is legacy when `policyTier` or
`capabilities` is absent (either one suffices); the community risk
requirement applies only to manifests with both present: for those,
with effective tier community, `validate_plugin_manifest_schema`
reports an error unless `risk` is a truthy dict whose `dataEgress` is
one of low, medium, high. -/
theorem claim_C1_amended (m : JVal) (tier : String)
    (h1 : hasKey m "policyTier" = true) (h2 : hasKey m "capabilities" = true)
    (h3 : effective_community m tier = true)
    (h4 : manifest_risk_ok m = false) :
    (validate_plugin_manifest_schema m tier).1 ≠ [] := by
  have hleg : manifest_is_legacy m = false := by
    unfold manifest_is_legacy
    rw [h1, h2]
    rfl
  have hrisk : schema_risk_errors m tier ≠ [] := by
    unfold schema_risk_errors
    unfold manifest_risk_ok at h4
    cases hR : truthy (pyGet m "risk") with
    | false => simp [h3, hleg, hR]
    | true =>
      cases hO : (pyGet m "risk").isObj with
      | false => simp [h3, hleg, hR, hO]
      | true =>
        have hE : egressValid (pyGet (pyGet m "risk") "dataEgress") = false := by
          rw [hR, hO] at h4
          simpa using h4
        simp [h3, hleg, hR, hO, hE]
  intro hnil
  have hshape : (validate_plugin_manifest_schema m tier).1 =
      (if !hasKey m "name" then ["manifest missing required field: name"] else []) ++
      schema_policy_tier_errors m tier ++ schema_caps_errors m ++
      schema_risk_errors m tier := rfl
  rw [hshape] at hnil
  simp only [List.append_eq_nil] at hnil
  exact hrisk hnil.2

/-- C1, witness for the amended theorem at `manifestBothNoRisk`. -/
theorem claim_C1_witness :
    hasKey manifestBothNoRisk "policyTier" = true ∧
    hasKey manifestBothNoRisk "capabilities" = true ∧
    effective_community manifestBothNoRisk "community" = true ∧
    manifest_risk_ok manifestBothNoRisk = false ∧
    (validate_plugin_manifest_schema manifestBothNoRisk "community").1 ≠ [] :=
  ⟨by decide, by decide, by decide, by decide,
   claim_C1_amended manifestBothNoRisk "community" (by decide) (by decide) (by decide)
     (by decide)⟩

/-!
## Claim C2
-/

/-- C2, counterexample.  On `badIndex` the index fails schema
validation, no per-plugin results are produced (so every result in the
aggregate vacuously has empty errors), yet the exit code is 1, not 0 —
refuting the stated `iff` on runs where the index itself fails schema
validation. -/
theorem claim_C2_counterexample :
    validate_marketplace_schema badIndex ≠ [] ∧
    (run_main noMatchEngine { marketplace := badIndex, fetch := fun _ => none }).results = [] ∧
    (run_main noMatchEngine { marketplace := badIndex, fetch := fun _ => none }).exit = 1 := by
  refine ⟨by decide, rfl, rfl⟩

/-- C2, amended.  The validator exits 0 iff the index passes schema
validation AND every aggregated `PluginResult` has an empty errors
sequence; an index schema failure exits 1 with no per-plugin results. -/
theorem claim_C2_amended (eng : ReEngine) (inp : MainInput) :
    (run_main eng inp).exit = 0 ↔
      (validate_marketplace_schema inp.marketplace = [] ∧
       ∀ r ∈ (run_main eng inp).results, r.errors = []) := by
  unfold run_main
  by_cases hs : (validate_marketplace_schema inp.marketplace).isEmpty = true
  · have hnil : validate_marketplace_schema inp.marketplace = [] := List.isEmpty_iff.mp hs
    simp only [hs, Bool.not_true, Bool.false_eq_true, if_false]
    by_cases hp : truthy (getKeyD inp.marketplace "plugins" (JVal.jarr [])) = true
    · simp only [hp, Bool.not_true, Bool.false_eq_true, if_false]
      constructor
      · intro h0
        refine ⟨hnil, ?_⟩
        intro r hr
        by_contra hne
        have hmem : r ∈ (main_loop eng inp
            (numberFrom 0 (getKeyD inp.marketplace "plugins" (JVal.jarr [])).asArr)
            [] [] []).1.filter (fun r => !r.errors.isEmpty) := by
          rw [List.mem_filter]
          exact ⟨hr, by simpa [List.isEmpty_iff] using hne⟩
        have : ((main_loop eng inp
            (numberFrom 0 (getKeyD inp.marketplace "plugins" (JVal.jarr [])).asArr)
            [] [] []).1.filter (fun r => !r.errors.isEmpty)) ≠ [] := by
          intro hfil
          rw [hfil] at hmem
          simp at hmem
        simp only [List.isEmpty_iff] at h0
        rw [if_pos (by simpa [List.isEmpty_iff] using this)] at h0
        simp at h0
      · rintro ⟨-, hall⟩
        have hfil : (main_loop eng inp
            (numberFrom 0 (getKeyD inp.marketplace "plugins" (JVal.jarr [])).asArr)
            [] [] []).1.filter (fun r => !r.errors.isEmpty) = [] := by
          rw [List.filter_eq_nil_iff]
          intro r hr
          have := hall r hr
          simp [this]
        simp [hfil]
    · simp only [hp, Bool.not_false, if_true]
      simp [hnil]
  · have hne : validate_marketplace_schema inp.marketplace ≠ [] := by
      intro h
      rw [h] at hs
      simp at hs
    simp only [hs, Bool.not_false, if_true]
    simp [hne]

/-!
## Claim C3
-/

/-- C3, counterexample.  One plugin, clone succeeds, validation
succeeds — yet right after that plugin's loop iteration (its
orchestration) completes, its clone directory `aplug` still exists
under the temp root: the source only removes it via the run-level
`cleanup_tmp()` after all plugins are processed (source line 874). -/
theorem claim_C3_counterexample :
    (run_main noMatchEngine exampleRun).results.length = 1 ∧
    (run_main noMatchEngine exampleRun).dirTrace = [["aplug"]] ∧
    (run_main noMatchEngine exampleRun).finalDirs = [] := by
  refine ⟨rfl, rfl, rfl⟩

/-- C3, amended.  Per-plugin clone directories are not removed when the
individual plugin's orchestration completes; they persist until the
run-level `cleanup_tmp` at the end of `main`, after which no per-plugin
temporary directory exists, on every input. -/
theorem claim_C3_amended (eng : ReEngine) (inp : MainInput) :
    (run_main eng inp).finalDirs = [] := by
  unfold run_main
  by_cases hs : (validate_marketplace_schema inp.marketplace).isEmpty = true
  · simp only [hs, Bool.not_true, Bool.false_eq_true, if_false]
    by_cases hp : truthy (getKeyD inp.marketplace "plugins" (JVal.jarr [])) = true
    · simp only [hp, Bool.not_true, Bool.false_eq_true, if_false]
      rfl
    · simp only [hp, Bool.not_false, if_true]
  · simp only [hs, Bool.not_false, if_true]

/-!
## Claim C10
-/

/-- C10.  `parse_plugin_entry` records an entry error whenever the
entry's `source.url` is not a truthy string that starts with `http` and
either ends with `.git` or matches GITHUB_REPO_RE
(`^https://github\.com/[^/]+/[^/]+(\.git)?$`). -/
theorem claim_C10 (p : JVal) (h : url_accepted (entry_source_url p) = false) :
    (parse_plugin_entry p).2.2.2 ≠ [] := by
  intro hnil
  have hshape : (parse_plugin_entry p).2.2.2 =
      entry_name_errors p ++ entry_tier_errors p ++ entry_tags_errors p ++
        entry_source_type_errors p ++ entry_url_presence_errors p ++
        entry_url_format_errors p := rfl
  rw [hshape] at hnil
  simp only [List.append_eq_nil] at hnil
  have h5 := hnil.1.2
  have h6 := hnil.2
  unfold entry_url_presence_errors at h5
  unfold entry_url_format_errors at h6
  unfold url_accepted at h
  cases ht : truthy (entry_source_url p) with
  | false => rw [if_pos (by simp [ht])] at h5; simp at h5
  | true =>
  cases hstr : (entry_source_url p).isStr with
  | false => rw [if_pos (by simp [ht, hstr])] at h5; simp at h5
  | true =>
  cases hhttp : pyStartsWith (entry_source_url p).asStr "http" with
  | false => rw [if_pos (by simp [ht, hstr, hhttp])] at h5; simp at h5
  | true =>
  rw [if_pos (by simp [ht, hstr])] at h6
  cases hg : pyEndsWith (entry_source_url p).asStr ".git" with
  | true => rw [ht, hstr, hhttp, hg] at h; simp at h
  | false =>
  rw [if_neg (by simp [hg])] at h6
  cases hgh : GITHUB_REPO_RE_match (entry_source_url p).asStr with
  | true => rw [ht, hstr, hhttp, hg, hgh] at h; simp at h
  | false =>
  rw [if_neg (by simp [hgh])] at h6
  simp at h6


/-- C10, witness at a non-GitHub https URL without `.git`. -/
theorem claim_C10_witness :
    url_accepted (entry_source_url gitlabEntry) = false ∧
    (parse_plugin_entry gitlabEntry).2.2.2 ≠ [] :=
  ⟨by decide, claim_C10 gitlabEntry (by decide)⟩

/-!
## Claim C4
-/

/-- C4.  For every file content and every line whose stripped form
starts with `#`, `//` or `*`, none of the three scan functions reports
a finding with that line's (1-based) number, under any matching
engine. -/
theorem claim_C4 (eng : ReEngine) (content : String) (k : Nat)
    (hk : k < (pySplit '\n' content).length)
    (hc : isCommentLine ((pySplit '\n' content).get ⟨k, hk⟩) = true)
    (nm sn : String) :
    (k + 1, nm, sn) ∉ scan_file_for_secrets eng content ∧
    (k + 1, nm, sn) ∉ scan_file_for_network eng content ∧
    (k + 1, nm, sn) ∉ scan_file_for_telemetry eng content := by
  have key : ∀ (pats : List (Nat × String)) (snip : String → String),
      (k + 1, nm, sn) ∉ scan_generic eng pats snip content := by
    intro pats snip hmem
    rw [scan_generic_mem] at hmem
    obtain ⟨k', hk', hc', p, hp, m, hm, ht⟩ := hmem
    have hkk : k' = k := by
      have := congrArg Prod.fst ht
      simp at this
      omega
    subst hkk
    rw [hc] at hc'
    simp at hc'
  exact ⟨key _ _, key _ _, key _ _⟩

/-- C4, witness: a comment line containing a telemetry call yields no
finding (and the engine really matches that pattern on the uncommented
text). -/
theorem claim_C4_witness :
    isCommentLine "# analytics.track(x)" = true ∧
    (demoEngine.search 304 "analytics.track(x)").isSome = true ∧
    (1, "Analytics tracking call", "analytics.track") ∉
      scan_file_for_telemetry demoEngine "# analytics.track(x)" := by
  refine ⟨by decide, by decide, ?_⟩
  exact (claim_C4 demoEngine "# analytics.track(x)" 0 (by decide) (by decide)
    "Analytics tracking call" "analytics.track").2.2

/-!
## Claim C8
-/

/-- C8.  For a regular (non-symlink) file of the walked repository: at
exactly MAX_FILE_SIZE = 2097152 bytes the per-file checks emit no
`File too large` error; at one byte more, a `File too large` error is
emitted and lands in the plugin's error list. -/
theorem claim_C8 (eng : ReEngine) (repo : Repo) (tier : String) (f : RFile)
    (hf : f ∈ repo.files) (hs : f.isSymlink = false) :
    (f.size = MAX_FILE_SIZE_BYTES →
      ∀ e ∈ (file_checks f).1, pyStartsWith e "File too large" = false) ∧
    (f.size = MAX_FILE_SIZE_BYTES + 1 →
      ∃ e ∈ (validate_plugin_repo eng repo tier).errors,
        pyStartsWith e "File too large" = true) := by
  constructor
  · intro hsz e he
    unfold file_checks at he
    rw [if_neg (by simp [hs])] at he
    have h1 : ¬(f.size > MAX_FILE_SIZE_BYTES) := by omega
    rw [if_neg (by simpa using h1)] at he
    simp only [List.nil_append, List.mem_append] at he
    rcases he with he | he
    · split at he
      · rcases List.mem_singleton.mp he with rfl
        rw [show ("Disallowed file type in repo: " ++ relString f ++ " (" ++
              pyLower f.suffix ++ ")") =
            "Disallowed file type in repo: " ++
              (relString f ++ " (" ++ pyLower f.suffix ++ ")") from by
          simp [String.append_assoc]]
        rw [pyStartsWith_append _ _ _ (by decide)]
        decide
      · simp at he
    · split at he
      · rcases List.mem_singleton.mp he with rfl
        rw [show ("Binary/suspicious file detected: " ++ relString f) =
            "Binary/suspicious file detected: " ++ relString f from rfl]
        rw [pyStartsWith_append _ _ _ (by decide)]
        decide
      · simp at he
  · intro hsz
    have hmsg : ("File too large: " ++ relString f ++ " (" ++ toString f.size ++
        " bytes) exceeds " ++ toString MAX_FILE_SIZE_BYTES ++ " bytes") ∈ (file_checks f).1 := by
      unfold file_checks
      rw [if_neg (by simp [hs])]
      rw [if_pos (by rw [hsz]; decide)]
      simp
    refine ⟨"File too large: " ++ relString f ++ " (" ++ toString f.size ++
        " bytes) exceeds " ++ toString MAX_FILE_SIZE_BYTES ++ " bytes", ?_, ?_⟩
    · have hfe : ("File too large: " ++ relString f ++ " (" ++ toString f.size ++
          " bytes) exceeds " ++ toString MAX_FILE_SIZE_BYTES ++ " bytes") ∈
          repo_file_errors repo.files := by
        unfold repo_file_errors
        rw [List.mem_flatMap]
        exact ⟨f, hf, hmsg⟩
      have hshape : (validate_plugin_repo eng repo tier).errors =
          repo_structure_errors repo ++ (repo_manifest_block repo tier).1 ++
          repo_count_errors repo.files ++ repo_size_errors repo.files ++
          repo_file_errors repo.files ++
          (security_scan_repo eng repo.files tier
            (repo_manifest_block repo tier).2.2.2).errors ++
          repo_consistency_errors tier (repo_manifest_block repo tier).2.2.1
            (security_scan_repo eng repo.files tier
              (repo_manifest_block repo tier).2.2.2) := rfl
      rw [hshape]
      simp only [List.mem_append]
      exact Or.inl (Or.inl (Or.inr hfe))
    · rw [show ("File too large: " ++ relString f ++ " (" ++ toString f.size ++
            " bytes) exceeds " ++ toString MAX_FILE_SIZE_BYTES ++ " bytes") =
          "File too large: " ++ (relString f ++ " (" ++ toString f.size ++
            " bytes) exceeds " ++ toString MAX_FILE_SIZE_BYTES ++ " bytes") from by
        simp [String.append_assoc]]
      rw [pyStartsWith_append _ _ _ (by decide)]
      decide

/-- C8, witness at a 2097153-byte file in a concrete repository. -/
theorem claim_C8_witness :
    bigFile ∈ bigRepo.files ∧ bigFile.size = MAX_FILE_SIZE_BYTES + 1 ∧
    ∃ e ∈ (validate_plugin_repo noMatchEngine bigRepo "curated").errors,
      pyStartsWith e "File too large" = true :=
  ⟨by decide, by decide,
   (claim_C8 noMatchEngine bigRepo "curated" bigFile (by decide) rfl).2 (by decide)⟩

/-!
## Claim C9
-/

/-- The generation-timestamp line always carries the stripped marker,
whatever the timestamp. -/
theorem generated_line_starts (t : String) :
    pyStartsWith ("**Generated:** " ++ t) "**Generated:**" = true := by
  rw [pyStartsWith_append _ _ _ (by decide)]
  decide

/-- C9.  Writing the catalog in default mode and immediately running
`--check` on unchanged inputs exits 0: the comparison drops every line
starting with `**Generated:**` from both sides, and the rest of the
rendered content is a deterministic function of the inputs, so the two
renders agree after stripping, for any pair of generation timestamps. -/
theorem claim_C9 (inp : CatInput) (t1 t2 : String) :
    catalog_main_check (some (catalog_main_write inp t1)) inp t2 = 0 := by
  unfold catalog_main_check
  by_cases hp : truthy (getKeyD inp.marketplace "plugins" (JVal.jarr [])) = true
  · simp only [hp, Bool.not_true, Bool.false_eq_true, if_false]
    have key : strip_timestamp (catalog_main_write inp t1) =
        strip_timestamp (catalog_main_write inp t2) := by
      unfold catalog_main_write generate_catalog strip_timestamp
      simp [List.filter_append, List.filter_cons, generated_line_starts t1,
        generated_line_starts t2]
    rw [key]
    simp
  · simp only [hp, Bool.not_false, if_true]

/-!
## Claim C7
-/

/-- C7, counterexample.  A file whose only pattern match is a telemetry
match: it yields exactly one (telemetry) error, no curated network
error, no warning — but `network_detected` is still set to `true`,
because the source sets it whenever `scan_file_for_network` (whose
table includes the telemetry patterns) returns any finding (source
lines 596-598), refuting the claim's final conjunct. -/
theorem claim_C7_counterexample :
    scan_file_for_network demoEngine telFile.content =
      [(1, "Analytics tracking call", "analytics.track")] ∧
    isTelemetryClassified demoEngine "analytics.track" = true ∧
    scan_file_for_secrets demoEngine telFile.content = [] ∧
    (security_scan_repo demoEngine [telFile] "curated" []).errors =
      ["SECURITY: Telemetry/analytics detected & rejected by validator in " ++
        "commands/t.js:1 - Analytics tracking call"] ∧
    (security_scan_repo demoEngine [telFile] "curated" []).warnings = [] ∧
    (security_scan_repo demoEngine [telFile] "curated" []).network_detected = true := by
  decide

/-- C7, amended.  When every network finding is reclassified as
telemetry (its recorded snippet matches a telemetry pattern), the scan
emits exactly the secret and telemetry errors — one per finding — and
no curated network error and no community network warning; but
`network_detected` is still true exactly when some candidate file has
any `scan_file_for_network` finding, telemetry-only files included. -/
theorem claim_C7_amended (eng : ReEngine) (files : List RFile) (tier : String)
    (ad : List JVal)
    (h : ∀ f ∈ files, is_scan_candidate f = true →
        ∀ t ∈ scan_file_for_network eng f.content,
          isTelemetryClassified eng t.2.2 = true) :
    (security_scan_repo eng files tier ad).errors =
      files.flatMap (fun f => if is_scan_candidate f then
        ((scan_file_for_secrets eng f.content).map (secretErrMsg (relString f))) ++
        ((scan_file_for_telemetry eng f.content).map (telemetryErrMsg (relString f)))
        else []) ∧
    (security_scan_repo eng files tier ad).warnings = [] ∧
    (security_scan_repo eng files tier ad).network_detected =
      files.any (fun f =>
        is_scan_candidate f && !(scan_file_for_network eng f.content).isEmpty) := by
  refine ⟨?_, ?_, rfl⟩
  · show files.flatMap _ = files.flatMap _
    apply List.flatMap_congr
    intro f hf
    by_cases hc : is_scan_candidate f = true
    · simp only [hc, if_true]
      unfold scanFileErrors
      have h3 : (if tier == "curated" then
          (scan_file_for_network eng f.content).filterMap (fun t =>
            if isTelemetryClassified eng t.2.2 then none
            else some (curatedNetErrMsg (relString f) t))
         else []) = [] := by
        split
        · rw [List.filterMap_eq_nil_iff]
          intro t ht
          rw [if_pos (h f hf hc t ht)]
        · rfl
      rw [h3, List.append_nil]
    · simp [hc]
  · show files.flatMap _ = []
    rw [List.flatMap_eq_nil_iff]
    intro f hf
    by_cases hc : is_scan_candidate f = true
    · simp only [hc, if_true]
      unfold scanFileWarnings
      split
      · rfl
      · rw [List.filterMap_eq_nil_iff]
        intro t ht
        rw [if_pos (h f hf hc t ht)]
    · simp [hc]

/-- C7, witness: the amended theorem at the telemetry-only file in the
community tier — one telemetry error, no network warning, and
`network_detected` true. -/
theorem claim_C7_witness :
    (security_scan_repo demoEngine [telFile] "community" []).warnings = [] ∧
    (security_scan_repo demoEngine [telFile] "community" []).network_detected = true :=
  ⟨(claim_C7_amended demoEngine [telFile] "community" [] (by decide)).2.1, by decide⟩

/-!
## Claim C5
-/

/-- C5, counterexample.  A curated plugin whose `commands/evil.md`
contains an `Invoke-WebRequest` line (a shell-network pattern match on
a non-comment line under a content directory) validates with zero
errors: the scanner only reads files with extensions in
SCANNABLE_EXTENSIONS (source line 567), and `.md` is not one of
them. -/
theorem claim_C5_counterexample :
    (validate_plugin_repo demoEngine evilRepo "curated").errors = [] ∧
    evilMd ∈ evilRepo.files ∧
    evilMd.parts.head? = some "commands" ∧
    isCommentLine evilMd.content = false ∧
    (208, "PowerShell Invoke-WebRequest") ∈ SHELL_NETWORK_PATTERNS ∧
    demoEngine.search 208 evilMd.content = some "Invoke-WebRequest" := by
  decide

/-- Soundness of an engine's telemetry matching under snippet
truncation: `match.group(0)` of any match is a substring of the line
and so is its 50-character prefix; since the telemetry regexes are
unanchored, a telemetry match inside the snippet implies a telemetry
match on the line.  `re.search` satisfies this for the source pattern
tables. -/
def TelemetrySound (eng : ReEngine) : Prop :=
  ∀ tp ∈ TELEMETRY_PATTERNS, ∀ p ∈ NETWORK_PATTERNS, ∀ line m,
    eng.search p.1 line = some m →
    (eng.search tp.1 (pyTake m 50)).isSome = true →
    (eng.search tp.1 line).isSome = true

/-- C5, amended.  For a curated plugin whose final result has no
errors, every file that the scanner actually reads — extension in
SCANNABLE_EXTENSIONS and rooted at a content directory — yields no
finding from any of the three scan functions (which skip comment
lines); files with other extensions are outside the scanner's reach. -/
theorem claim_C5_amended (eng : ReEngine) (repo : Repo)
    (hsound : TelemetrySound eng)
    (he : (validate_plugin_repo eng repo "curated").errors = []) :
    ∀ f ∈ repo.files, is_scan_candidate f = true →
      scan_file_for_secrets eng f.content = [] ∧
      scan_file_for_network eng f.content = [] ∧
      scan_file_for_telemetry eng f.content = [] := by
  intro f hf hc
  have hshape : (validate_plugin_repo eng repo "curated").errors =
      repo_structure_errors repo ++ (repo_manifest_block repo "curated").1 ++
      repo_count_errors repo.files ++ repo_size_errors repo.files ++
      repo_file_errors repo.files ++
      (security_scan_repo eng repo.files "curated"
        (repo_manifest_block repo "curated").2.2.2).errors ++
      repo_consistency_errors "curated" (repo_manifest_block repo "curated").2.2.1
        (security_scan_repo eng repo.files "curated"
          (repo_manifest_block repo "curated").2.2.2) := rfl
  rw [hshape] at he
  simp only [List.append_eq_nil] at he
  have hsec : (security_scan_repo eng repo.files "curated"
      (repo_manifest_block repo "curated").2.2.2).errors = [] := he.1.2
  have hfile : scanFileErrors eng "curated" f = [] := by
    have hall := List.flatMap_eq_nil_iff.mp hsec f hf
    rw [if_pos hc] at hall
    exact hall
  unfold scanFileErrors at hfile
  simp only [List.append_eq_nil] at hfile
  have hsecrets : scan_file_for_secrets eng f.content = [] :=
    List.map_eq_nil_iff.mp hfile.1.1
  have htel : scan_file_for_telemetry eng f.content = [] :=
    List.map_eq_nil_iff.mp hfile.1.2
  have hnetclass : ∀ t ∈ scan_file_for_network eng f.content,
      isTelemetryClassified eng t.2.2 = true := by
    intro t ht
    have h3 := hfile.2
    rw [if_pos (by decide : (("curated" : String) == "curated") = true)] at h3
    have h4 := List.filterMap_eq_nil_iff.mp h3 t ht
    by_contra hcl
    rw [Bool.not_eq_true] at hcl
    rw [if_neg (by simp [hcl])] at h4
    simp at h4
  have hnet : scan_file_for_network eng f.content = [] := by
    by_contra hne
    obtain ⟨t, ht⟩ := List.exists_mem_of_ne_nil _ hne
    have hcl := hnetclass t ht
    have hm := scan_generic_mem.mp ht
    obtain ⟨k, hk, hcom, p, hp, m, hms, hteq⟩ := hm
    unfold isTelemetryClassified at hcl
    rw [List.any_eq_true] at hcl
    obtain ⟨tp, htp, hsome⟩ := hcl
    have hsnip : t.2.2 = pyTake m 50 := by rw [hteq]
    rw [hsnip] at hsome
    have hline := hsound tp htp p hp _ m hms hsome
    rw [Option.isSome_iff_exists] at hline
    obtain ⟨m', hm'⟩ := hline
    have hmem : (1 + k, tp.2, pyTake m' 50) ∈ scan_file_for_telemetry eng f.content := by
      rw [show scan_file_for_telemetry eng f.content =
          scan_generic eng TELEMETRY_PATTERNS (fun m => pyTake m 50) f.content from rfl]
      rw [scan_generic_mem]
      exact ⟨k, hk, hcom, tp, htp, m', hm', rfl⟩
    rw [htel] at hmem
    simp at hmem
  exact ⟨hsecrets, hnet, htel⟩

/-- C5, witness: a clean curated repository with a scannable file. -/
theorem claim_C5_witness :
    (validate_plugin_repo noMatchEngine cleanCuratedRepo "curated").errors = [] ∧
    is_scan_candidate cleanPy = true ∧
    scan_file_for_network noMatchEngine cleanPy.content = [] := by
  have hsound : TelemetrySound noMatchEngine := by
    intro tp _ p _ line m hm _
    simp [noMatchEngine] at hm
  exact ⟨by decide, by decide,
    (claim_C5_amended noMatchEngine cleanCuratedRepo hsound (by decide) cleanPy (by decide)
      (by decide)).2.1⟩

/-!
## Claim C6
-/

/-- A detected domain implies a network finding, hence
`network_detected`. -/
theorem network_detected_of_mem_domains {eng : ReEngine} {files : List RFile}
    {tier : String} {ad : List JVal} {d : String}
    (h : d ∈ (security_scan_repo eng files tier ad).detected_domains) :
    (security_scan_repo eng files tier ad).network_detected = true := by
  obtain ⟨f, hf, hin⟩ := List.mem_flatMap.mp h
  by_cases hc : is_scan_candidate f = true
  · rw [if_pos hc] at hin
    obtain ⟨t, ht, -⟩ := List.mem_filterMap.mp hin
    show List.any _ _ = true
    rw [List.any_eq_true]
    refine ⟨f, hf, ?_⟩
    rw [hc]
    simp only [Bool.true_and, Bool.not_eq_true']
    rw [← Bool.not_eq_true, List.isEmpty_iff]
    exact List.ne_nil_of_mem ht
  · rw [if_neg hc] at hin
    simp at hin

/-- The manifest block carries the schema and tier-policy errors
whenever it produced a manifest value. -/
theorem repo_manifest_block_of_manifest {repo : Repo} {tier : String} {m : JVal}
    (h : (repo_manifest_block repo tier).2.2.1 = some m) :
    (repo_manifest_block repo tier).1 =
      (validate_plugin_manifest_schema m tier).1 ++
        validate_tier_policy m tier (manifest_is_legacy m) := by
  unfold repo_manifest_block at h ⊢
  cases hp : repo.manifestPath with
  | none => rw [hp] at h; simp at h
  | some mp =>
    rw [hp] at h
    cases hj : repo.manifestJson with
    | none => rw [hj] at h; simp at h
    | some m' =>
      rw [hj] at h
      simp at h
      subst h
      rfl

/-- Reduction of the consistency wrapper at a parsed manifest. -/
theorem repo_consistency_errors_some {tier : String} {m : JVal} {sec : ScanOut} :
    repo_consistency_errors tier (some m) sec =
      if truthy m then
        check_consistency tier m sec.network_detected sec.detected_domains
      else [] := rfl

/-- C6.  For a community plugin whose final result has no errors, every
detected domain is a member of the manifest's declared
`capabilities.network.domains` set. -/
theorem claim_C6 (eng : ReEngine) (repo : Repo) (m : JVal)
    (hm : (validate_plugin_repo eng repo "community").manifest = some m)
    (he : (validate_plugin_repo eng repo "community").errors = []) :
    ∀ d ∈ (validate_plugin_repo eng repo "community").detected_domains,
      containsJ (declared_domains_of m) (JVal.jstr d) = true := by
  intro d hd
  have hmb : (repo_manifest_block repo "community").2.2.1 = some m := hm
  have hshape : (validate_plugin_repo eng repo "community").errors =
      repo_structure_errors repo ++ (repo_manifest_block repo "community").1 ++
      repo_count_errors repo.files ++ repo_size_errors repo.files ++
      repo_file_errors repo.files ++
      (security_scan_repo eng repo.files "community"
        (repo_manifest_block repo "community").2.2.2).errors ++
      repo_consistency_errors "community" (repo_manifest_block repo "community").2.2.1
        (security_scan_repo eng repo.files "community"
          (repo_manifest_block repo "community").2.2.2) := rfl
  rw [hshape] at he
  simp only [List.append_eq_nil] at he
  have hmb1 : (repo_manifest_block repo "community").1 = [] := he.1.1.1.1.1.2
  have hcons : repo_consistency_errors "community"
      (repo_manifest_block repo "community").2.2.1
      (security_scan_repo eng repo.files "community"
        (repo_manifest_block repo "community").2.2.2) = [] := he.2
  rw [repo_manifest_block_of_manifest hmb] at hmb1
  rw [List.append_eq_nil] at hmb1
  have hschema : (validate_plugin_manifest_schema m "community").1 = [] := hmb1.1
  have hpolicy : validate_tier_policy m "community" (manifest_is_legacy m) = [] := hmb1.2
  -- the manifest has a name, hence is truthy
  have hname : hasKey m "name" = true := by
    have hshape2 : (validate_plugin_manifest_schema m "community").1 =
        (if !hasKey m "name" then ["manifest missing required field: name"] else []) ++
        schema_policy_tier_errors m "community" ++ schema_caps_errors m ++
        schema_risk_errors m "community" := rfl
    rw [hshape2] at hschema
    simp only [List.append_eq_nil] at hschema
    have h1 := hschema.1.1.1
    by_contra hk
    rw [Bool.not_eq_true] at hk
    rw [if_pos (by simp [hk])] at h1
    simp at h1
  have htr : truthy m = true := truthy_of_hasKey hname
  rw [hmb, repo_consistency_errors_some] at hcons
  rw [if_pos htr] at hcons
  unfold check_consistency at hcons
  rw [List.append_eq_nil] at hcons
  -- network mode analysis
  have hdet : d ∈ (security_scan_repo eng repo.files "community"
      (repo_manifest_block repo "community").2.2.2).detected_domains := hd
  have hnd := network_detected_of_mem_domains hdet
  have hnotnone : jvalEqStr (consistency_mode m) "none" = false := by
    by_contra hmode
    rw [Bool.not_eq_false] at hmode
    have h1 := hcons.1
    rw [if_pos (by rw [hnd, hmode]; rfl)] at h1
    simp at h1
  have hallow : jvalEqStr (consistency_mode m) "allowlist" = true := by
    unfold validate_tier_policy at hpolicy
    rw [if_neg (by decide), if_pos (by decide)] at hpolicy
    rw [List.append_eq_nil] at hpolicy
    have h1 := hpolicy.1
    rw [← tier_policy_mode_eq_consistency_mode] at hnotnone
    by_contra ha
    rw [Bool.not_eq_true] at ha
    rw [← tier_policy_mode_eq_consistency_mode] at ha
    rw [if_pos (by rw [hnotnone, ha]; rfl)] at h1
    simp at h1
  -- with allowlist declared, an undeclared detected domain is an error
  have h2 := hcons.2
  have hne : (security_scan_repo eng repo.files "community"
      (repo_manifest_block repo "community").2.2.2).detected_domains.isEmpty = false := by
    rw [← Bool.not_eq_true, List.isEmpty_iff]
    exact List.ne_nil_of_mem hdet
  by_contra hgoal
  rw [Bool.not_eq_true] at hgoal
  have hund : ((security_scan_repo eng repo.files "community"
      (repo_manifest_block repo "community").2.2.2).detected_domains.filter
        (fun x => !containsJ (declared_domains_of m) (JVal.jstr x))).isEmpty = false := by
    rw [← Bool.not_eq_true, List.isEmpty_iff]
    intro hnil
    have := List.filter_eq_nil_iff.mp hnil d hd
    simp [hgoal] at this
  rw [if_pos (by rw [hallow, hne, hund]; rfl)] at h2
  simp at h2

/-- C6, witness: a clean community repository (no detected domains). -/
theorem claim_C6_witness :
    (validate_plugin_repo noMatchEngine communityRepo "community").manifest =
      some communityManifest ∧
    (validate_plugin_repo noMatchEngine communityRepo "community").errors = [] ∧
    ∀ d ∈ (validate_plugin_repo noMatchEngine communityRepo "community").detected_domains,
      containsJ (declared_domains_of communityManifest) (JVal.jstr d) = true :=
  ⟨rfl, by decide,
   claim_C6 noMatchEngine communityRepo communityManifest rfl (by decide)⟩

end PluginValidator
